import Mathlib

/-!
Verification development for the Go-to-Java converter extension.

The TypeScript sources are shallowly embedded: JavaScript strings are
modelled as `List Char` (`Str`), JavaScript `Map`s as association lists,
mutable class state as explicitly threaded records, and asynchronous
operations that may fail (LSP queries, document reads) as `Except`-valued
functions supplied by an abstract `World`.  Every embedded definition keeps
the name and structure of its TypeScript original.
-/

/-- JavaScript strings, modelled as their character sequences. -/
abbrev Str := List Char

/-- JavaScript whitespace class `\s` (ASCII part). -/
def isWS (c : Char) : Bool :=
  c = ' ' || c = '\t' || c = '\n' || c = '\r' || c = '\x0b' || c = '\x0c'

/-- JavaScript word-character class `\w` = `[A-Za-z0-9_]`. -/
def isWordChar (c : Char) : Bool :=
  ('a' ≤ c && c ≤ 'z') || ('A' ≤ c && c ≤ 'Z') || ('0' ≤ c && c ≤ '9') || c = '_'

/-- JavaScript `String.prototype.trim` (strip whitespace at both ends). -/
def jsTrim (s : Str) : Str :=
  ((s.dropWhile isWS).reverse.dropWhile isWS).reverse

/-- JavaScript `s.split(sep)` for a single-character separator. -/
def jsSplitChar (sep : Char) (s : Str) : List Str :=
  match s with
  | [] => [[]]
  | c :: cs =>
    let rest := jsSplitChar sep cs
    if c = sep then [] :: rest
    else
      match rest with
      | [] => [[c]]
      | r :: rs => (c :: r) :: rs

/-- JavaScript `s.split(/\s+/).filter(Boolean)`: the maximal runs of
non-whitespace characters. -/
def wsTokens (s : Str) : List Str :=
  match s with
  | [] => []
  | c :: cs =>
    if isWS c then wsTokens cs
    else
      match wsTokens cs with
      | [] => [[c]]
      | r :: rs =>
        match cs with
        | [] => [[c]]
        | d :: _ => if isWS d then [c] :: r :: rs else (c :: r) :: rs

/-- JavaScript `s.includes(sub)` (substring containment). -/
def jsIncludes (sub : Str) (s : Str) : Bool :=
  match s with
  | [] => sub.isPrefixOf ([] : Str)
  | _ :: cs => sub.isPrefixOf s || jsIncludes sub cs

/-- JavaScript `s.replace(pat, "")` for a single-character pattern given as a
string: removes only the first occurrence. -/
def jsReplaceFirst (pat : Char) (s : Str) : Str :=
  match s with
  | [] => []
  | c :: cs => if c = pat then cs else c :: jsReplaceFirst pat cs

/-- JavaScript `s.replace(/^x/, "")`: removes the character only at the
start of the string. -/
def stripLeading (pat : Char) (s : Str) : Str :=
  match s with
  | [] => []
  | c :: cs => if c = pat then cs else c :: cs

/-- JavaScript `Array.prototype.join(sep)`. -/
def jsJoin (sep : Str) : List Str → Str
  | [] => []
  | [x] => x
  | x :: xs => x ++ sep ++ jsJoin sep xs

/-- `${n}` — decimal rendering of a number in a template literal. -/
def natStr (n : Nat) : Str := Nat.toDigits 10 n

/-- First index of `c` in `s` (`String.prototype.indexOf`), `none` for -1. -/
def jsIndexOfChar (c : Char) (s : Str) : Option Nat :=
  s.findIdx? (fun d => d = c)

/-- Association-list model of a JavaScript `Map`: `set` replaces an existing
binding or appends a new one. -/
def mapSet (k : Str) (v : α) : List (Str × α) → List (Str × α)
  | [] => [(k, v)]
  | (k', v') :: rest => if k' = k then (k, v) :: rest else (k', v') :: mapSet k v rest

/-- Association-list model of `Map.prototype.get`. -/
def mapGet (k : Str) : List (Str × α) → Option α
  | [] => none
  | (k', v') :: rest => if k' = k then some v' else mapGet k rest

/-- Association-list model of `Map.prototype.delete`. -/
def mapDelete (k : Str) : List (Str × α) → List (Str × α)
  | [] => []
  | (k', v') :: rest => if k' = k then rest else (k', v') :: mapDelete k rest

/-- Source position for LSP queries (`SourcePosition` in goParser.ts). -/
structure SourcePosition where
  line : Nat
  character : Nat
deriving DecidableEq, Repr

/-- Source range (`SourceRange` in goParser.ts); `stop` is the `end` field. -/
structure SourceRange where
  start : SourcePosition
  stop : SourcePosition
deriving DecidableEq, Repr

/-- `GoType` from goParser.ts.  The type is recursive through the optional
map key/value types, hence an inductive with projection functions. -/
inductive GoType where
  | mk (name : Str) (isPointer : Bool) (isSlice : Bool) (isMap : Bool) (isVariadic : Bool)
       (keyType : Option GoType) (valueType : Option GoType)
       (position : Option SourcePosition) (packagePath : Option Str)
       (isStruct : Option Bool) (isInterface : Option Bool)

def GoType.name : GoType → Str
  | .mk n _ _ _ _ _ _ _ _ _ _ => n

def GoType.isPointer : GoType → Bool
  | .mk _ p _ _ _ _ _ _ _ _ _ => p

def GoType.isSlice : GoType → Bool
  | .mk _ _ s _ _ _ _ _ _ _ _ => s

def GoType.isMap : GoType → Bool
  | .mk _ _ _ m _ _ _ _ _ _ _ => m

def GoType.isVariadic : GoType → Bool
  | .mk _ _ _ _ v _ _ _ _ _ _ => v

def GoType.keyType : GoType → Option GoType
  | .mk _ _ _ _ _ k _ _ _ _ _ => k

def GoType.valueType : GoType → Option GoType
  | .mk _ _ _ _ _ _ v _ _ _ _ => v

def GoType.position : GoType → Option SourcePosition
  | .mk _ _ _ _ _ _ _ pos _ _ _ => pos

def GoType.packagePath : GoType → Option Str
  | .mk _ _ _ _ _ _ _ _ pp _ _ => pp

def GoType.isStructF : GoType → Option Bool
  | .mk _ _ _ _ _ _ _ _ _ st _ => st

def GoType.isInterfaceF : GoType → Option Bool
  | .mk _ _ _ _ _ _ _ _ _ _ it => it

/-- `{ ...t, isStruct: true }` — used when the resolver enriches a node. -/
def GoType.setIsStruct : GoType → GoType
  | .mk n p s m v k val pos pp _ it => .mk n p s m v k val pos pp (some true) it

/-- `{ ...t, isInterface: true }` — used when the resolver enriches a node. -/
def GoType.setIsInterface : GoType → GoType
  | .mk n p s m v k val pos pp st _ => .mk n p s m v k val pos pp st (some true)

/-- `{ ...param.type, isSlice: false, isVariadic: false }` from
`JavaCodeGenerator.generateParameterList`. -/
def GoType.clearSliceVariadic : GoType → GoType
  | .mk n p _ m _ k val pos pp st it => .mk n p false m false k val pos pp st it

/-- A type literal with only `name` and the four shape flags set (the shape
constructed throughout the parsers). -/
def GoType.plain (name : Str) (isPointer isSlice isMap isVariadic : Bool)
    (keyType valueType : Option GoType) : GoType :=
  .mk name isPointer isSlice isMap isVariadic keyType valueType none none none none

/-- `GoParameter` from goParser.ts. -/
structure GoParameter where
  name : Str
  type : GoType
  namePosition : Option SourcePosition := none
  typePosition : Option SourcePosition := none

/-- `GoFunction` from goParser.ts (the position fields are never produced by
the embedded code paths and are omitted). -/
structure GoFunction where
  name : Str
  parameters : List GoParameter
  returnTypes : List GoType
  isMethod : Bool
  receiver : Option GoParameter
  hasErrorReturn : Bool

namespace GoFunctionParser

/-- `TYPE_MAP` from goParser.ts (Go type name → Java type name). -/
def TYPE_MAP (k : Str) : Option Str :=
  if k = "int".data then some ("int".data)
  else if k = "int8".data then some ("byte".data)
  else if k = "int16".data then some ("short".data)
  else if k = "int32".data then some ("int".data)
  else if k = "int64".data then some ("long".data)
  else if k = "uint".data then some ("int".data)
  else if k = "uint8".data then some ("byte".data)
  else if k = "uint16".data then some ("int".data)
  else if k = "uint32".data then some ("long".data)
  else if k = "uint64".data then some ("long".data)
  else if k = "float32".data then some ("float".data)
  else if k = "float64".data then some ("double".data)
  else if k = "bool".data then some ("boolean".data)
  else if k = "string".data then some ("String".data)
  else if k = "rune".data then some ("char".data)
  else if k = "byte".data then some ("byte".data)
  else if k = "error".data then some ("Exception".data)
  else if k = "interface\x7b\x7d".data then some ("Object".data)
  else if k = "any".data then some ("Object".data)
  else none

/-- `BOXED_TYPE_MAP` from goParser.ts (Java primitive → boxed type). -/
def BOXED_TYPE_MAP (k : Str) : Option Str :=
  if k = "int".data then some ("Integer".data)
  else if k = "byte".data then some ("Byte".data)
  else if k = "short".data then some ("Short".data)
  else if k = "long".data then some ("Long".data)
  else if k = "float".data then some ("Float".data)
  else if k = "double".data then some ("Double".data)
  else if k = "boolean".data then some ("Boolean".data)
  else if k = "char".data then some ("Character".data)
  else none

/-- One attempt of the regex `map\[(.+)\](.+)` at the start of `s`: the
literal `map[`, then a greedy group up to the last `]` that still leaves a
non-empty remainder, with `.` not matching newlines. -/
def mapMatchAt (s : Str) : Option (Str × Str) :=
  if ("map[".data).isPrefixOf s then
    let rest := s.drop 4
    match (List.range rest.length).reverse.find? (fun i =>
        decide (1 ≤ i) && decide (rest.getD i ' ' = ']') &&
        decide (i + 1 < rest.length) &&
        (rest.take i).all (fun c => c ≠ '\n') &&
        decide (rest.getD (i + 1) ' ' ≠ '\n')) with
    | some i => some (rest.take i, (rest.drop (i + 1)).takeWhile (fun c => c ≠ '\n'))
    | none => none
  else none

/-- The unanchored search of `trimmed.match(/map\[(.+)\](.+)/)`: try each
start position from the left. -/
def jsMatchMapType : Str → Option (Str × Str)
  | [] => none
  | c :: cs =>
    match mapMatchAt (c :: cs) with
    | some r => some r
    | none => jsMatchMapType cs

/-- `GoFunctionParser.parseType` from goParser.ts, with an explicit fuel
argument bounding map-type nesting so the definition is structurally
recursive.  `parseType` below instantiates the fuel with the string length,
which always suffices because `jsMatchMapType` returns strictly shorter
key/value strings (`jsMatchMapType_bounds`); the fuel-exhausted arm is
unreachable under that instantiation.  The four flags are tested on the
whole trimmed string in a fixed order, but the `else if` chain strips only
the first matching prefix. -/
def parseTypeFuel : Nat → Str → GoType
  | 0, typeStr =>
    let trimmed := jsTrim typeStr
    let isVariadic := ("...".data).isPrefixOf trimmed
    let isPointer := ("*".data).isPrefixOf trimmed
    let isSlice := ("[]".data).isPrefixOf trimmed
    if isVariadic then
      GoType.plain (trimmed.drop 3) isPointer (isSlice || isVariadic) false isVariadic none none
    else if isPointer then
      GoType.plain (trimmed.drop 1) isPointer (isSlice || isVariadic) false isVariadic none none
    else if isSlice then
      GoType.plain (trimmed.drop 2) isPointer (isSlice || isVariadic) false isVariadic none none
    else
      GoType.plain trimmed isPointer (isSlice || isVariadic) false isVariadic none none
  | fuel + 1, typeStr =>
    let trimmed := jsTrim typeStr
    let isVariadic := ("...".data).isPrefixOf trimmed
    let isPointer := ("*".data).isPrefixOf trimmed
    let isSlice := ("[]".data).isPrefixOf trimmed
    let isMap := ("map[".data).isPrefixOf trimmed
    if isVariadic then
      GoType.plain (trimmed.drop 3) isPointer (isSlice || isVariadic) false isVariadic none none
    else if isPointer then
      GoType.plain (trimmed.drop 1) isPointer (isSlice || isVariadic) false isVariadic none none
    else if isSlice then
      GoType.plain (trimmed.drop 2) isPointer (isSlice || isVariadic) false isVariadic none none
    else if isMap then
      match jsMatchMapType trimmed with
      | some (kStr, vStr) =>
        GoType.plain ("Map".data) false false true false
          (some (parseTypeFuel fuel kStr)) (some (parseTypeFuel fuel vStr))
      | none =>
        GoType.plain trimmed isPointer (isSlice || isVariadic) false isVariadic none none
    else
      GoType.plain trimmed isPointer (isSlice || isVariadic) false isVariadic none none

/-- `GoFunctionParser.parseType` from goParser.ts. -/
def parseType (typeStr : Str) : GoType :=
  parseTypeFuel typeStr.length typeStr

/-- `GoFunctionParser.convertGoTypeToJava`, non-container path. -/
def convertBase (name : Str) (isPointer isSlice : Bool) (needsBoxing : Bool) : Str :=
  let baseType := (TYPE_MAP name).getD name
  if isSlice then
    ("List<".data) ++ ((BOXED_TYPE_MAP baseType).getD baseType) ++ (">".data)
  else if isPointer then
    if baseType = "String".data || baseType = "Object".data then baseType
    else
      match BOXED_TYPE_MAP baseType with
      | some boxed => boxed
      | none => baseType
  else if needsBoxing then
    match BOXED_TYPE_MAP baseType with
    | some boxed => boxed
    | none => baseType
  else baseType

/-- `GoFunctionParser.convertGoTypeToJava` from goParser.ts. -/
def convertGoTypeToJava : GoType → Bool → Str
  | .mk name isPointer isSlice isMap _ (some k) (some v) _ _ _ _, needsBoxing =>
    if isMap then
      ("Map<".data) ++ convertGoTypeToJava k true ++ (", ".data) ++
        convertGoTypeToJava v true ++ (">".data)
    else convertBase name isPointer isSlice needsBoxing
  | .mk name isPointer isSlice _ _ _ _ _ _ _ _, needsBoxing =>
    convertBase name isPointer isSlice needsBoxing

/-- `GoFunctionParser.toJavaMethodName`. -/
def toJavaMethodName : Str → Str
  | [] => []
  | c :: cs => c.toLower :: cs

/-- `GoFunctionParser.toJavaClassName`. -/
def toJavaClassName : Str → Str
  | [] => []
  | c :: cs => c.toUpper :: cs

/-- The grouped-parameter scan of `GoFunctionParser.parseParameters`:
name-only segments are carried forward until a segment exposes a type. -/
def parseParamSegments : List Str → List Str → List GoParameter
  | [], _ => []
  | seg :: rest, pendingNames =>
    let tokens := wsTokens seg
    if tokens.length = 1 then
      parseParamSegments rest (pendingNames ++ [tokens.headD []])
    else
      let typeStr := jsJoin (" ".data) (tokens.drop (tokens.length - 1))
      let names := pendingNames ++ tokens.take (tokens.length - 1)
      let type := parseType typeStr
      names.map (fun name => { name := name, type := type : GoParameter }) ++
        parseParamSegments rest []

/-- `GoFunctionParser.parseParameters` from goParser.ts. -/
def parseParameters (paramsStr : Str) : List GoParameter :=
  let trimmed := jsTrim paramsStr
  if trimmed = [] then []
  else
    let segments := ((jsSplitChar ',' trimmed).map jsTrim).filter (fun s => s ≠ [])
    parseParamSegments segments []

/-- `GoFunctionParser.parseReturnTypes` from goParser.ts. -/
def parseReturnTypes (returnStr : Str) : List GoType :=
  if jsTrim returnStr = [] then []
  else
    let cleanReturnStr :=
      if (":".data).isPrefixOf returnStr then jsTrim (returnStr.drop 1)
      else jsTrim returnStr
    let cleanReturnStr :=
      if ("(".data).isPrefixOf cleanReturnStr && (")".data).isSuffixOf cleanReturnStr then
        jsTrim (cleanReturnStr.drop 1 |>.dropLast)
      else cleanReturnStr
    let returnList := ((jsSplitChar ',' cleanReturnStr).map jsTrim).filter (fun s => s ≠ [])
    returnList.filterMap (fun returnItem =>
      let tokens := wsTokens returnItem
      match tokens.getLast? with
      | none => none
      | some typeToken => some (parseType typeToken))

/-- `(.*)` in a JavaScript regex: greedily matches characters up to the next
newline (or the end of the string). -/
def jsDotStar (s : Str) : Str := s.takeWhile (fun c => c ≠ '\n')

/-- The regex `/^func\s+\(([^)]+)\)\s+(\w+)/` from
`GoFunctionParser.parseFunction`: on success returns the receiver text
(group 1), the function name (group 2) and the length of the whole match
(`match[0].length`). -/
def matchReceiver (s : Str) : Option (Str × Str × Nat) :=
  if ("func".data).isPrefixOf s then
    let rest := s.drop 4
    let ws1 := rest.takeWhile isWS
    let rest1 := rest.dropWhile isWS
    if ws1.length = 0 then none
    else
      match rest1 with
      | '(' :: r =>
        let inner := r.takeWhile (fun c => c ≠ ')')
        if inner.length = 0 then none
        else
          match r.drop inner.length with
          | ')' :: after =>
            let ws2 := after.takeWhile isWS
            let rest2 := after.dropWhile isWS
            if ws2.length = 0 then none
            else
              let name := rest2.takeWhile isWordChar
              if name.length = 0 then none
              else some (inner, name, 4 + ws1.length + 1 + inner.length + 1 + ws2.length + name.length)
          | _ => none
      | _ => none
  else none

/-- One attempt of the regex `(\w+)\s*\(([^)]*)\)(.*)` at the start of `s`. -/
def matchFuncSigAt (s : Str) : Option (Str × Str × Str) :=
  let w := s.takeWhile isWordChar
  if w.length = 0 then none
  else
    let rest := (s.dropWhile isWordChar).dropWhile isWS
    match rest with
    | '(' :: r =>
      let inner := r.takeWhile (fun c => c ≠ ')')
      match r.drop inner.length with
      | ')' :: after => some (w, inner, jsDotStar after)
      | _ => none
    | _ => none

/-- The unanchored search of `afterReceiver.match(/(\w+)\s*\(([^)]*)\)(.*)/)`:
the engine tries each start position from the left. -/
def matchFuncSig : Str → Option (Str × Str × Str)
  | [] => none
  | c :: cs =>
    match matchFuncSigAt (c :: cs) with
    | some r => some r
    | none => matchFuncSig cs

/-- `GoFunctionParser.parseFunction` from goParser.ts. -/
def parseFunction (text : Str) : Option GoFunction :=
  let cleanText := jsTrim text
  if ¬ ("func".data).isPrefixOf cleanText then none
  else
    let receiverMatch := matchReceiver cleanText
    let isMethod := receiverMatch.isSome
    let receiver : Option GoParameter :=
      match receiverMatch with
      | some (g1, _, _) => (parseParameters g1).head?
      | none => none
    let afterReceiver :=
      match receiverMatch with
      | some (_, g2, fullLen) => cleanText.drop (fullLen - g2.length)
      | none => cleanText.drop 4
    match matchFuncSig afterReceiver with
    | none => none
    | some (name, paramsStr, returnRaw) =>
      let returnPart := jsTrim returnRaw
      let returnTypes := parseReturnTypes returnPart
      let parameters := parseParameters paramsStr
      let hasErrorReturn := returnTypes.any (fun t => t.name = "error".data)
      some {
        name := name
        parameters := parameters
        returnTypes := returnTypes
        isMethod := isMethod
        receiver := receiver
        hasErrorReturn := hasErrorReturn
      }

end GoFunctionParser

/-- `JavaGenerationOptions` from javaGenerator.ts. -/
structure JavaGenerationOptions where
  className : Option Str := none
  isStatic : Bool
  addComments : Bool
  handleErrorsAsExceptions : Bool
  addLearningHints : Option Bool := none

/-- The default options value used by `generateJavaMethod`/`generateResultClass`. -/
def defaultJavaOptions : JavaGenerationOptions :=
  { isStatic := true, addComments := true, handleErrorsAsExceptions := true }

namespace JavaCodeGenerator

/-- `JavaCodeGenerator.getParameterDescription`.  The optional chains
`keyType?.name` / `valueType?.name` render as `undefined` in the template
literal when absent, as in JavaScript. -/
def getParameterDescription (param : GoParameter) : Str :=
  if param.type.isSlice then
    ("list of ".data) ++ param.type.name ++ (" values".data)
  else if param.type.isMap then
    ("map with ".data) ++ ((param.type.keyType.map GoType.name).getD ("undefined".data)) ++
      (" keys and ".data) ++ ((param.type.valueType.map GoType.name).getD ("undefined".data)) ++
      (" values".data)
  else if param.type.isPointer then
    param.type.name ++ (" reference".data)
  else
    param.type.name ++ (" value".data)

/-- `JavaCodeGenerator.generateJavaDoc` (as its pushed line list). -/
def generateJavaDocLines (goFunc : GoFunction) : List Str :=
  [("    /**".data),
   ("     * Converted from Go function: ".data) ++ goFunc.name] ++
  (if goFunc.parameters.length > 0 then
    ("     *".data) ::
      goFunc.parameters.map (fun param =>
        ("     * @param ".data) ++ param.name ++ (" ".data) ++ getParameterDescription param)
   else []) ++
  (if goFunc.returnTypes.length > 0 then
    ("     *".data) ::
      (if goFunc.returnTypes.length = 1 then
        (if (goFunc.returnTypes.headD (GoType.plain [] false false false false none none)).name ≠
            ("error".data) then
          [("     * @return ".data) ++
            GoFunctionParser.convertGoTypeToJava
              (goFunc.returnTypes.headD (GoType.plain [] false false false false none none)) false ++
            (" value".data)]
         else [])
       else [("     * @return Result object containing multiple return values".data)])
   else []) ++
  (if goFunc.hasErrorReturn then [("     * @throws Exception if operation fails".data)] else []) ++
  [("     */".data)]

/-- `JavaCodeGenerator.generateJavaDoc`. -/
def generateJavaDoc (goFunc : GoFunction) : Str :=
  jsJoin ("\n".data) (generateJavaDocLines goFunc)

/-- `JavaCodeGenerator.generateResultClassName`. -/
def generateResultClassName (goFunc : GoFunction) (options : JavaGenerationOptions) : Str :=
  match options.className with
  | some cn => cn ++ GoFunctionParser.toJavaClassName goFunc.name ++ ("Result".data)
  | none => GoFunctionParser.toJavaClassName goFunc.name ++ ("Result".data)

/-- `JavaCodeGenerator.getReturnType`. -/
def getReturnType (goFunc : GoFunction) (options : JavaGenerationOptions) : Str :=
  if goFunc.returnTypes.length = 0 then ("void".data)
  else
    let nonErrorTypes := goFunc.returnTypes.filter (fun t => t.name ≠ ("error".data))
    if nonErrorTypes.length = 0 then ("void".data)
    else if nonErrorTypes.length = 1 then
      GoFunctionParser.convertGoTypeToJava
        (nonErrorTypes.headD (GoType.plain [] false false false false none none)) false
    else generateResultClassName goFunc options

/-- `JavaCodeGenerator.toJavaParameterName`. -/
def toJavaParameterName : Str → Str
  | [] => []
  | c :: cs => c.toLower :: cs

/-- `JavaCodeGenerator.generateParameterList`: the rendered parameter items
before they are joined with `", "`.  A variadic final parameter is rendered
as a Java varargs parameter of the unboxed base type. -/
def parameterItems (goFunc : GoFunction) : List Str :=
  goFunc.parameters.enum.map (fun p =>
    let param := p.2
    let isLast := decide (p.1 = goFunc.parameters.length - 1)
    if param.type.isVariadic && isLast then
      let baseType := GoFunctionParser.convertGoTypeToJava param.type.clearSliceVariadic false
      baseType ++ ("... ".data) ++ toJavaParameterName param.name
    else
      let javaType := GoFunctionParser.convertGoTypeToJava param.type false
      javaType ++ (" ".data) ++ toJavaParameterName param.name)

/-- `JavaCodeGenerator.generateParameterList`. -/
def generateParameterList (goFunc : GoFunction) : Str :=
  jsJoin (", ".data) (parameterItems goFunc)

/-- `JavaCodeGenerator.generateMethodSignature`. -/
def generateMethodSignature (goFunc : GoFunction) (options : JavaGenerationOptions) : Str :=
  let parts : List Str :=
    [(if options.isStatic && !goFunc.isMethod then ("public static".data) else ("public".data))] ++
    [getReturnType goFunc options] ++
    [GoFunctionParser.toJavaMethodName goFunc.name ++ ("(".data) ++
      generateParameterList goFunc ++ (")".data)] ++
    (if goFunc.hasErrorReturn && options.handleErrorsAsExceptions
     then [("throws Exception".data)] else [])
  ("    ".data) ++ jsJoin (" ".data) parts ++ (" \x7b".data)

/-- `JavaCodeGenerator.getDefaultValue`. -/
def getDefaultValue (javaType : Str) : Str :=
  if javaType = ("int".data) || javaType = ("long".data) || javaType = ("short".data) ||
      javaType = ("byte".data) then ("0".data)
  else if javaType = ("float".data) || javaType = ("double".data) then ("0.0".data)
  else if javaType = ("boolean".data) then ("false".data)
  else if javaType = ("char".data) then ("\x27\\0\x27".data)
  else if javaType = ("String".data) then ("\x22\x22".data)
  else if ("List<".data).isPrefixOf javaType then ("new ArrayList<>()".data)
  else if ("Map<".data).isPrefixOf javaType then ("new HashMap<>()".data)
  else ("null".data)

/-- `JavaCodeGenerator.generateMethodBody` (as its pushed line list, before
the final `'}'` push). -/
def generateMethodBodyLines (goFunc : GoFunction) (options : JavaGenerationOptions) : List Str :=
  if goFunc.returnTypes.length = 0 then
    (if goFunc.hasErrorReturn && options.handleErrorsAsExceptions then
      [("    // Handle error case".data),
       ("    throw new Exception(\x22Not implemented\x22);".data)]
     else [("    // Method implementation".data)])
  else if goFunc.returnTypes.length = 1 then
    let returnType := goFunc.returnTypes.headD (GoType.plain [] false false false false none none)
    if returnType.name = ("error".data) then
      (("    // Error handling implementation".data) ::
        (if options.handleErrorsAsExceptions then
          [("    throw new Exception(\x22Not implemented\x22);".data)] else []))
    else
      let javaType := GoFunctionParser.convertGoTypeToJava returnType false
      [("    return ".data) ++ getDefaultValue javaType ++ (";".data)]
  else
    [("    return new ".data) ++ generateResultClassName goFunc options ++ ("();".data)]

/-- `JavaCodeGenerator.generateMethodBody`. -/
def generateMethodBody (goFunc : GoFunction) (options : JavaGenerationOptions) : Str :=
  jsJoin ("\n".data) (generateMethodBodyLines goFunc options ++ [("\x7d".data)])

/-- `JavaCodeGenerator.generateJavaMethod` (as its pushed line list). -/
def generateJavaMethodLines (goFunc : GoFunction) (options : JavaGenerationOptions) : List Str :=
  (if options.addComments then [generateJavaDoc goFunc] else []) ++
  [generateMethodSignature goFunc options,
   ("    // TODO: Implement method logic".data),
   generateMethodBody goFunc options]

/-- `JavaCodeGenerator.generateJavaMethod`. -/
def generateJavaMethod (goFunc : GoFunction) (options : JavaGenerationOptions) : Str :=
  jsJoin ("\n".data) (generateJavaMethodLines goFunc options)

/-- The private-field lines pushed by `JavaCodeGenerator.generateResultClass`
(one per non-`error` return type, indexed by position in the full return
list). -/
def resultFieldLines (goFunc : GoFunction) : List Str :=
  goFunc.returnTypes.enum.filterMap (fun p =>
    if p.2.name = ("error".data) then none
    else
      let javaType := GoFunctionParser.convertGoTypeToJava p.2 false
      some (("    private ".data) ++ javaType ++ (" value".data) ++ natStr (p.1 + 1) ++ (";".data)))

/-- One getter/setter block pushed by `JavaCodeGenerator.generateResultClass`
for the return type at index `i` (of `total` return types). -/
def resultAccessorBlock (total : Nat) (i : Nat) (rt : GoType) : List Str :=
  let javaType := GoFunctionParser.convertGoTypeToJava rt false
  let fieldName := ("value".data) ++ natStr (i + 1)
  [("    public ".data) ++ javaType ++ (" getValue".data) ++ natStr (i + 1) ++ ("() \x7b".data),
   ("        return ".data) ++ fieldName ++ (";".data),
   ("    \x7d".data),
   ([] : Str),
   ("    public void setValue".data) ++ natStr (i + 1) ++ ("(".data) ++ javaType ++ (" ".data) ++
     fieldName ++ (") \x7b".data),
   ("        this.".data) ++ fieldName ++ (" = ".data) ++ fieldName ++ (";".data),
   ("    \x7d".data)] ++
  (if i < total - 1 then [([] : Str)] else [])

/-- The getter/setter blocks pushed by `JavaCodeGenerator.generateResultClass`
(one per non-`error` return type). -/
def resultAccessorBlocks (goFunc : GoFunction) : List (List Str) :=
  goFunc.returnTypes.enum.filterMap (fun p =>
    if p.2.name = ("error".data) then none
    else some (resultAccessorBlock goFunc.returnTypes.length p.1 p.2))

/-- The full line list pushed by `JavaCodeGenerator.generateResultClass`. -/
def generateResultClassLines (goFunc : GoFunction) (options : JavaGenerationOptions) : List Str :=
  (("public static class ".data) ++ generateResultClassName goFunc options ++ (" \x7b".data)) ::
    resultFieldLines goFunc ++ [([] : Str)] ++
    (resultAccessorBlocks goFunc).flatten ++ [("\x7d".data)]

/-- `JavaCodeGenerator.generateResultClass`: returns the empty string when
`returnTypes.length <= 1` (note: the length of the full return-type list,
including `error` entries). -/
def generateResultClass (goFunc : GoFunction) (options : JavaGenerationOptions) : Str :=
  if goFunc.returnTypes.length ≤ 1 then []
  else jsJoin ("\n".data) (generateResultClassLines goFunc options)

/-- The learning-hints comment block of `JavaCodeGenerator.generateFullJavaClass`. -/
def learningHintsLines (goFunc : GoFunction) : List Str :=
  [("/**".data), (" * Go to Java Conversion Notes:".data)] ++
  (if goFunc.returnTypes.length > 1 then
    [(" * - Go supports multiple return values; Java uses a Result class to achieve this".data)]
   else []) ++
  (if goFunc.hasErrorReturn then
    [(" * - Go\x27s error type is mapped to Java exceptions (throws Exception)".data)] else []) ++
  (if goFunc.parameters.any (fun p => p.type.isSlice) then
    [(" * - Go slices are mapped to Java List<T> (dynamic arrays)".data)] else []) ++
  (if goFunc.parameters.any (fun p => p.type.isMap) then
    [(" * - Go maps are mapped to Java Map<K,V>".data)] else []) ++
  (if goFunc.parameters.any (fun p => p.type.isVariadic) then
    [(" * - Go variadic parameters (...T) are mapped to Java varargs (T...)".data)] else []) ++
  (if goFunc.parameters.any (fun p => p.type.isPointer) then
    [(" * - Go pointers (*T) are mapped to Java objects (all objects are references)".data)]
   else []) ++
  [(" */".data)]

/-- The method options built inside `JavaCodeGenerator.generateFullJavaClass`. -/
def fullClassMethodOptions (className : Str) (options : Option JavaGenerationOptions) :
    JavaGenerationOptions :=
  { className := some className
    isStatic := true
    addComments := true
    handleErrorsAsExceptions := true
    addLearningHints := options.bind (fun o => o.addLearningHints) }

/-- The full line list pushed by `JavaCodeGenerator.generateFullJavaClass`. -/
def generateFullJavaClassLines (goFunc : GoFunction) (className : Str)
    (options : Option JavaGenerationOptions) : List Str :=
  let methodOptions := fullClassMethodOptions className options
  let resultClass := generateResultClass goFunc methodOptions
  [("import java.util.*;".data), ([] : Str)] ++
  (if ((options.bind (fun o => o.addLearningHints)).getD false) then learningHintsLines goFunc
   else []) ++
  [("public class ".data) ++ className ++ (" \x7b".data), ([] : Str)] ++
  [generateJavaMethod goFunc methodOptions, ([] : Str)] ++
  (if resultClass ≠ [] then [resultClass] else []) ++
  [("\x7d".data)]

/-- `JavaCodeGenerator.generateFullJavaClass`. -/
def generateFullJavaClass (goFunc : GoFunction) (className : Str)
    (options : Option JavaGenerationOptions) : Str :=
  jsJoin ("\n".data) (generateFullJavaClassLines goFunc className options)

end JavaCodeGenerator

/-- `GoImport` from goFileParser.ts (`aliasName` is the `alias` field,
renamed because `alias` is a Lean keyword). -/
structure GoImport where
  aliasName : Option Str
  path : Str
  line : Option Nat := none

/-- `GoField` from goFileParser.ts. -/
structure GoField where
  name : Str
  type : GoType
  tag : Option Str := none
  exported : Bool
  namePosition : Option SourcePosition := none
  typePosition : Option SourcePosition := none
  isEmbedded : Option Bool := none

/-- `GoMethodSignature` from goFileParser.ts. -/
structure GoMethodSignature where
  name : Str
  parameters : List GoParameter
  returnTypes : List GoType
  namePosition : Option SourcePosition := none

/-- `GoStruct` from goFileParser.ts. -/
structure GoStruct where
  name : Str
  fields : List GoField
  methods : List GoFunction
  namePosition : Option SourcePosition := none
  range : Option SourceRange := none
  embeddedTypes : Option (List GoType) := none

/-- `GoInterface` from goFileParser.ts. -/
structure GoInterface where
  name : Str
  methods : List GoMethodSignature
  namePosition : Option SourcePosition := none
  range : Option SourceRange := none
  embeddedInterfaces : Option (List Str) := none

/-- `GoVariable` from goFileParser.ts (`GoConstant` is an alias). -/
structure GoVariable where
  name : Str
  type : Option GoType
  isConst : Bool
  exported : Bool
  value : Option Str := none
  namePosition : Option SourcePosition := none
  typePosition : Option SourcePosition := none

abbrev GoConstant := GoVariable

/-- `GoFile` from goFileParser.ts (`vars` is the `variables` field, renamed
because `variables` is a Lean keyword). -/
structure GoFile where
  packageName : Str
  imports : List GoImport
  structs : List GoStruct
  interfaces : List GoInterface
  functions : List GoFunction
  vars : List GoVariable
  constants : List GoConstant

/-- `buildImportAliasMap` from goFileParser.ts: alias (or last path segment
when the alias is absent or empty) → full import path. -/
def buildImportAliasMap (goFile : GoFile) : List (Str × Str) :=
  goFile.imports.foldl (fun m imp =>
    let lastSeg := ((jsSplitChar '/' imp.path).getLastD [])
    let aliasKey :=
      match imp.aliasName with
      | some a => if a = [] then lastSeg else a
      | none => lastSeg
    mapSet aliasKey imp.path m) []

/-- Result record of `resolveQualifiedType` from goFileParser.ts. -/
structure QualifiedType where
  packageAlias : Str
  typeName : Str
  fullImportPath : Option Str

/-- `resolveQualifiedType` from goFileParser.ts. -/
def resolveQualifiedType (typeName : Str) (importMap : List (Str × Str)) :
    Option QualifiedType :=
  match jsIndexOfChar '.' typeName with
  | none => none
  | some dotIndex =>
    let packageAlias := typeName.take dotIndex
    let shortTypeName := typeName.drop (dotIndex + 1)
    some { packageAlias := packageAlias, typeName := shortTypeName,
           fullImportPath := mapGet packageAlias importMap }

/-- `StdlibTypeMapping` from conversionContext.ts. -/
structure StdlibTypeMapping where
  javaType : Str
  javaImport : Option Str := none
  isInterface : Option Bool := none
  conversionNote : Option Str := none

/-- `STDLIB_TYPE_MAPPINGS` from conversionContext.ts (mapping notes are not
needed by any verified property and are elided to `none`). -/
def STDLIB_TYPE_MAPPINGS : List (Str × StdlibTypeMapping) :=
  [(("io.Reader".data), { javaType := ("InputStream".data), javaImport := some ("java.io.InputStream".data), isInterface := some true }),
   (("io.Writer".data), { javaType := ("OutputStream".data), javaImport := some ("java.io.OutputStream".data), isInterface := some true }),
   (("io.Closer".data), { javaType := ("Closeable".data), javaImport := some ("java.io.Closeable".data), isInterface := some true }),
   (("io.ReadWriter".data), { javaType := ("Object".data) }),
   (("io.ReadCloser".data), { javaType := ("InputStream".data), javaImport := some ("java.io.InputStream".data), isInterface := some true }),
   (("io.WriteCloser".data), { javaType := ("OutputStream".data), javaImport := some ("java.io.OutputStream".data), isInterface := some true }),
   (("context.Context".data), { javaType := ("Object".data) }),
   (("time.Time".data), { javaType := ("Instant".data), javaImport := some ("java.time.Instant".data) }),
   (("time.Duration".data), { javaType := ("Duration".data), javaImport := some ("java.time.Duration".data) }),
   (("http.Request".data), { javaType := ("HttpServletRequest".data), javaImport := some ("javax.servlet.http.HttpServletRequest".data), isInterface := some true }),
   (("http.ResponseWriter".data), { javaType := ("HttpServletResponse".data), javaImport := some ("javax.servlet.http.HttpServletResponse".data), isInterface := some true }),
   (("http.Handler".data), { javaType := ("Object".data), isInterface := some true }),
   (("http.Client".data), { javaType := ("HttpClient".data), javaImport := some ("java.net.http.HttpClient".data) }),
   (("sync.Mutex".data), { javaType := ("ReentrantLock".data), javaImport := some ("java.util.concurrent.locks.ReentrantLock".data) }),
   (("sync.RWMutex".data), { javaType := ("ReentrantReadWriteLock".data), javaImport := some ("java.util.concurrent.locks.ReentrantReadWriteLock".data) }),
   (("sync.WaitGroup".data), { javaType := ("CountDownLatch".data), javaImport := some ("java.util.concurrent.CountDownLatch".data) }),
   (("sync.Once".data), { javaType := ("Object".data) }),
   (("sync.Map".data), { javaType := ("ConcurrentHashMap".data), javaImport := some ("java.util.concurrent.ConcurrentHashMap".data) }),
   (("bytes.Buffer".data), { javaType := ("ByteArrayOutputStream".data), javaImport := some ("java.io.ByteArrayOutputStream".data) }),
   (("bytes.Reader".data), { javaType := ("ByteArrayInputStream".data), javaImport := some ("java.io.ByteArrayInputStream".data) }),
   (("strings.Builder".data), { javaType := ("StringBuilder".data) }),
   (("strings.Reader".data), { javaType := ("StringReader".data), javaImport := some ("java.io.StringReader".data) }),
   (("bufio.Reader".data), { javaType := ("BufferedReader".data), javaImport := some ("java.io.BufferedReader".data) }),
   (("bufio.Writer".data), { javaType := ("BufferedWriter".data), javaImport := some ("java.io.BufferedWriter".data) }),
   (("bufio.Scanner".data), { javaType := ("Scanner".data), javaImport := some ("java.util.Scanner".data) }),
   (("os.File".data), { javaType := ("RandomAccessFile".data), javaImport := some ("java.io.RandomAccessFile".data) }),
   (("regexp.Regexp".data), { javaType := ("Pattern".data), javaImport := some ("java.util.regex.Pattern".data) }),
   (("json.Decoder".data), { javaType := ("ObjectMapper".data), javaImport := some ("com.fasterxml.jackson.databind.ObjectMapper".data) }),
   (("json.Encoder".data), { javaType := ("ObjectMapper".data), javaImport := some ("com.fasterxml.jackson.databind.ObjectMapper".data) }),
   (("errors.error".data), { javaType := ("Exception".data) }),
   (("fmt.Stringer".data), { javaType := ("Object".data), isInterface := some true })]

/-- `lookupStdlibType` from conversionContext.ts. -/
def lookupStdlibType (typeName : Str) (packagePath : Option Str) : Option StdlibTypeMapping :=
  if jsIncludes (".".data) typeName then
    mapGet typeName STDLIB_TYPE_MAPPINGS
  else
    match packagePath with
    | some p =>
      if p = [] then none
      else mapGet (p ++ (".".data) ++ typeName) STDLIB_TYPE_MAPPINGS
    | none => none

/-- `ConversionContext` from conversionContext.ts. -/
structure ConversionContext where
  mainFile : GoFile
  externalStructs : List GoStruct
  externalInterfaces : List GoInterface
  importAliasMap : List (Str × Str)
  lspResolutionSucceeded : Bool

/-- `JavaFileGenerationOptions` from javaFileGenerator.ts. -/
structure JavaFileGenerationOptions extends JavaGenerationOptions where
  packageName : Option Str := none
  fileClassName : Option Str := none
  includeConstructors : Option Bool := none
  includeGettersSetters : Option Bool := none
  includeComments : Option Bool := none
  includeExternalTypes : Option Bool := none
  addStdlibNotes : Option Bool := none

namespace JavaFileGenerator

/-- `JavaFileGenerator.convertTypeToJavaWithContext`. -/
def convertTypeToJavaWithContext (goType : GoType) (ctx : Option ConversionContext) : Str :=
  match ctx with
  | none => GoFunctionParser.convertGoTypeToJava goType (goType.isSlice || goType.isMap)
  | some ctx =>
    match lookupStdlibType goType.name goType.packagePath with
    | some stdlibMapping => stdlibMapping.javaType
    | none =>
      if jsIncludes (".".data) goType.name then
        let parts := jsSplitChar '.' goType.name
        let pkgAlias := parts.headD []
        let typeName := parts.getD 1 []
        match mapGet pkgAlias ctx.importAliasMap with
        | some _ =>
          match lookupStdlibType (pkgAlias ++ (".".data) ++ typeName) none with
          | some mapping => mapping.javaType
          | none => GoFunctionParser.convertGoTypeToJava goType (goType.isSlice || goType.isMap)
        | none => GoFunctionParser.convertGoTypeToJava goType (goType.isSlice || goType.isMap)
      else GoFunctionParser.convertGoTypeToJava goType (goType.isSlice || goType.isMap)

/-- `JavaFileGenerator.getStdlibNote`. -/
def getStdlibNote (goType : GoType) (ctx : Option ConversionContext) : Str :=
  match ctx with
  | none => []
  | some _ =>
    match lookupStdlibType goType.name goType.packagePath with
    | some mapping =>
      match mapping.conversionNote with
      | some note => (" (Note: ".data) ++ note ++ (")".data)
      | none => []
    | none => []

/-- `JavaFileGenerator.getReturnTypeWithContext`. -/
def getReturnTypeWithContext (returnTypes : List GoType) (ctx : Option ConversionContext) : Str :=
  if returnTypes.length = 0 then ("void".data)
  else
    let nonErrorTypes := returnTypes.filter (fun t => t.name ≠ ("error".data))
    if nonErrorTypes.length = 0 then ("void".data)
    else if nonErrorTypes.length = 1 then
      convertTypeToJavaWithContext
        (nonErrorTypes.headD (GoType.plain [] false false false false none none)) ctx
    else ("Object".data)

/-- `JavaFileGenerator.generateParameterListWithContext`: unlike
`JavaCodeGenerator.generateParameterList`, there is no special case for a
trailing variadic parameter. -/
def generateParameterListWithContext (parameters : List GoParameter)
    (ctx : Option ConversionContext) : Str :=
  jsJoin (", ".data) (parameters.map (fun param =>
    let javaType := convertTypeToJavaWithContext param.type ctx
    let paramName := GoFunctionParser.toJavaMethodName param.name
    javaType ++ (" ".data) ++ paramName))

/-- The line list pushed by `JavaFileGenerator.generateJavaInterface`. -/
def generateJavaInterfaceLines (iface : GoInterface) (options : JavaFileGenerationOptions)
    (ctx : Option ConversionContext) (isExternal : Bool) : List Str :=
  (if options.includeComments.getD false then
    [("/**".data)] ++
    (if isExternal then [(" * External interface from imported package".data)] else []) ++
    [(" * Converted from Go interface: ".data) ++ iface.name] ++
    (match iface.embeddedInterfaces with
     | some embedded =>
       if embedded.length > 0 then
         [(" *".data), (" * Embeds interfaces: ".data) ++ jsJoin (", ".data) embedded]
       else []
     | none => []) ++
    [(" */".data)]
   else []) ++
  (let extendsClause :=
    match iface.embeddedInterfaces with
    | some embedded =>
      if embedded.length > 0 then (" extends ".data) ++ jsJoin (", ".data) embedded else []
    | none => []
   [("public interface ".data) ++ iface.name ++ extendsClause ++ (" \x7b".data)]) ++
  (if iface.methods.length > 0 then
    iface.methods.flatMap (fun method =>
      [([] : Str)] ++
      (if options.includeComments.getD false then
        [("    /**".data), ("     * ".data) ++ method.name] ++
        (if method.parameters.length > 0 then
          method.parameters.map (fun param =>
            ("     * @param ".data) ++ param.name ++ getStdlibNote param.type ctx)
         else []) ++
        (if method.returnTypes.length > 0 then [("     * @return result".data)] else []) ++
        [("     */".data)]
       else []) ++
      (let returnType := getReturnTypeWithContext method.returnTypes ctx
       let params := generateParameterListWithContext method.parameters ctx
       let throwsClause :=
         if method.returnTypes.any (fun t => t.name = ("error".data)) then
           (" throws Exception".data)
         else []
       [("    ".data) ++ returnType ++ (" ".data) ++
          GoFunctionParser.toJavaMethodName method.name ++ ("(".data) ++ params ++ (")".data) ++
          throwsClause ++ (";".data)]))
   else []) ++
  [("\x7d".data)]

/-- `JavaFileGenerator.generateJavaInterface`. -/
def generateJavaInterface (iface : GoInterface) (options : JavaFileGenerationOptions)
    (ctx : Option ConversionContext) (isExternal : Bool) : Str :=
  jsJoin ("\n".data) (generateJavaInterfaceLines iface options ctx isExternal)

end JavaFileGenerator

/-- The backtick character (Go struct-tag delimiter). -/
def backtickChar : Char := Char.ofNat 96

/-- JS `s.indexOf(sub)` as an option (`none` for -1). -/
def jsIndexOfSub (sub : Str) : Str → Option Nat :=
  go 0
where
  go (idx : Nat) : Str → Option Nat
  | [] => if sub = [] then some idx else none
  | c :: cs => if sub.isPrefixOf (c :: cs) then some idx else go (idx + 1) cs

/-- JS `s.indexOf(sub, fromIndex)` as an option. -/
def jsIndexOfSubFrom (sub : Str) (s : Str) (fromIndex : Nat) : Option Nat :=
  (jsIndexOfSub sub (s.drop fromIndex)).map (· + fromIndex)

/-- JS `lines[i]` where the index is not known to be in bounds: an
out-of-bounds access yields `undefined`, and the method call that follows
in the source would throw (modelled as `Except.error`). -/
def lineAt (lines : List Str) (i : Nat) : Except Unit Str :=
  match lines.get? i with
  | some l => Except.ok l
  | none => Except.error ()

namespace GoFileParser

/-- The regex `^kw\s+(\w+)` for a literal keyword `kw`: returns the word
group. -/
def matchKeywordWord (kw : Str) (line : Str) : Option Str :=
  if kw.isPrefixOf line then
    let rest := line.drop kw.length
    if (rest.takeWhile isWS).length = 0 then none
    else
      let name := (rest.dropWhile isWS).takeWhile isWordChar
      if name.length = 0 then none else some name
  else none

/-- `GoFileParser.parsePackage`: the regex `^package\s+(\w+)`, with `''` on
failure. -/
def parsePackage (line : Str) : Str :=
  (matchKeywordWord ("package".data) line).getD []

/-- The `(?:(\w+)\s+)?"([^"]+)"` part shared by the two import regexes:
an optional alias word followed by a quoted non-empty path. -/
def matchAliasPath (s : Str) : Option (Option Str × Str) :=
  match s with
  | '\x22' :: r =>
    let path := r.takeWhile (fun c => c ≠ '\x22')
    if path.length = 0 then none
    else
      match r.drop path.length with
      | '\x22' :: _ => some (none, path)
      | _ => none
  | _ =>
    let w := s.takeWhile isWordChar
    if w.length = 0 then none
    else
      let afterW := s.drop w.length
      if (afterW.takeWhile isWS).length = 0 then none
      else
        match afterW.dropWhile isWS with
        | '\x22' :: r =>
          let path := r.takeWhile (fun c => c ≠ '\x22')
          if path.length = 0 then none
          else
            match r.drop path.length with
            | '\x22' :: _ => some (some w, path)
            | _ => none
        | _ => none

/-- The regex `^import\s+(?:(\w+)\s+)?"([^"]+)"` from
`GoFileParser.parseImports`. -/
def matchSingleImport (line : Str) : Option (Option Str × Str) :=
  if ("import".data).isPrefixOf line then
    let rest := line.drop 6
    if (rest.takeWhile isWS).length = 0 then none
    else matchAliasPath (rest.dropWhile isWS)
  else none

/-- The regex `^type\s+(\w+)\s+kind\s*\{?` from
`GoFileParser.parseTypeDeclaration` (`kind` is `struct` or `interface`):
returns the name group.  The trailing `\s*\{?` always succeeds and imposes
no constraint. -/
def matchTypeDecl (kind : Str) (line : Str) : Option Str :=
  if ("type".data).isPrefixOf line then
    let rest := line.drop 4
    if (rest.takeWhile isWS).length = 0 then none
    else
      let name := (rest.dropWhile isWS).takeWhile isWordChar
      if name.length = 0 then none
      else
        let afterName := (rest.dropWhile isWS).drop name.length
        if (afterName.takeWhile isWS).length = 0 then none
        else if kind.isPrefixOf (afterName.dropWhile isWS) then some name
        else none
  else none

/-- The optional Go-tag group `(?:\s+`…`)?` of the field regexes: `none`
when the group does not match. -/
def matchTagGroup (s : Str) : Option Str :=
  if (s.takeWhile isWS).length = 0 then none
  else
    match s.dropWhile isWS with
    | c :: r =>
      if c = backtickChar then
        let tag := r.takeWhile (fun d => d ≠ backtickChar)
        if tag.length = 0 then none
        else
          match r.drop tag.length with
          | d :: _ => if d = backtickChar then some tag else none
          | _ => none
      else none
    | _ => none

/-- The named-field regex `^(\w+)\s+([^\s`]+)(?:\s+`([^`]+)`)?` from
`GoFileParser.parseField`. -/
def matchNamedField (line : Str) : Option (Str × Str × Option Str) :=
  let name := line.takeWhile isWordChar
  if name.length = 0 then none
  else
    let rest := line.drop name.length
    if (rest.takeWhile isWS).length = 0 then none
    else
      let rest1 := rest.dropWhile isWS
      let typeStr := rest1.takeWhile (fun c => ¬ isWS c && c ≠ backtickChar)
      if typeStr.length = 0 then none
      else some (name, typeStr, matchTagGroup (rest1.drop typeStr.length))

/-- The embedded-field regex `^(\*?)([A-Z]\w*(?:\.\w+)?)(?:\s+`([^`]+)`)?$`
from `GoFileParser.parseField`. -/
def matchEmbeddedField (line : Str) : Option (Str × Str × Option Str) :=
  let (pointer, rest) : Str × Str :=
    match line with
    | '*' :: r => (['*'], r)
    | _ => ([], line)
  match rest with
  | c :: r =>
    if 'A' ≤ c ∧ c ≤ 'Z' then
      let w := r.takeWhile isWordChar
      let afterW := r.drop w.length
      let (typeName, afterName) : Str × Str :=
        match afterW with
        | '.' :: r2 =>
          let w2 := r2.takeWhile isWordChar
          if w2.length = 0 then (c :: w, afterW)
          else (c :: w ++ '.' :: w2, r2.drop w2.length)
        | _ => (c :: w, afterW)
      -- the remainder must be empty or exactly a whitespace-prefixed tag
      if afterName = [] then some (pointer, typeName, none)
      else
        match matchTagGroup afterName with
        | some tag =>
          -- the tag group must consume the rest of the line (the `$` anchor)
          let restAfterWs := afterName.dropWhile isWS
          if restAfterWs.length = tag.length + 2 then some (pointer, typeName, some tag)
          else none
        | none => none
    else none
  | _ => none

/-- `GoFileParser.parseField`. -/
def parseField (line : Str) (lineNumber : Nat) (rawLine : Str) : Option GoField :=
  match matchNamedField line with
  | some (name, typeStr, tag) =>
    let exported := decide (name.headD ' ' = (name.headD ' ').toUpper)
    let nameIndex := jsIndexOfSub name rawLine
    let fromIdx :=
      match nameIndex with
      | some n => n + name.length
      | none => name.length - 1
    let typeIndex := jsIndexOfSubFrom typeStr rawLine fromIdx
    some { name := name
           type := GoFunctionParser.parseType typeStr
           tag := tag
           exported := exported
           isEmbedded := some false
           namePosition := some { line := lineNumber, character := nameIndex.getD 0 }
           typePosition := some { line := lineNumber, character := typeIndex.getD 0 } }
  | none =>
    match matchEmbeddedField line with
    | some (pointer, typeName, tag) =>
      let fullTypeName := pointer ++ typeName
      let shortName :=
        if jsIncludes (".".data) typeName then (jsSplitChar '.' typeName).getLastD []
        else typeName
      let exported := decide (shortName.headD ' ' = (shortName.headD ' ').toUpper)
      let typeIndex := jsIndexOfSub fullTypeName rawLine
      some { name := shortName
             type := GoFunctionParser.parseType fullTypeName
             tag := tag
             exported := exported
             isEmbedded := some true
             namePosition := some { line := lineNumber, character := typeIndex.getD 0 }
             typePosition := some { line := lineNumber, character := typeIndex.getD 0 } }
    | none => none

/-- `GoFileParser.parseMethodSignature` (regex
`^(\w+)\s*\(([^)]*)\)\s*(.*)`). -/
def parseMethodSignature (line : Str) : Option GoMethodSignature :=
  let w := line.takeWhile isWordChar
  if w.length = 0 then none
  else
    match (line.dropWhile isWordChar).dropWhile isWS with
    | '(' :: r =>
      let inner := r.takeWhile (fun c => c ≠ ')')
      match r.drop inner.length with
      | ')' :: after =>
        let returnPart := jsTrim (GoFunctionParser.jsDotStar (after.dropWhile isWS))
        some { name := w
               parameters := GoFunctionParser.parseParameters inner
               returnTypes := GoFunctionParser.parseReturnTypes returnPart }
      | _ => none
    | _ => none

/-- `GoFileParser.parseVariable` (regex
`^kw\s+(\w+)(?:\s+([^=\s]+))?(?:\s*=\s*(.+))?`). -/
def parseVariable (line : Str) (isConst : Bool) : Option GoVariable :=
  let keyword := if isConst then ("const".data) else ("var".data)
  if keyword.isPrefixOf line then
    let rest := line.drop keyword.length
    if (rest.takeWhile isWS).length = 0 then none
    else
      let rest1 := rest.dropWhile isWS
      let name := rest1.takeWhile isWordChar
      if name.length = 0 then none
      else
        let rest2 := rest1.drop name.length
        -- optional `(?:\s+([^=\s]+))?`
        let (typeStr, rest3) : Option Str × Str :=
          if (rest2.takeWhile isWS).length = 0 then (none, rest2)
          else
            let t := (rest2.dropWhile isWS).takeWhile (fun c => ¬ isWS c && c ≠ '=')
            if t.length = 0 then (none, rest2)
            else (some t, (rest2.dropWhile isWS).drop t.length)
        -- optional `(?:\s*=\s*(.+))?`
        let value : Option Str :=
          match rest3.dropWhile isWS with
          | '=' :: r =>
            let v := GoFunctionParser.jsDotStar (r.dropWhile isWS)
            if v.length = 0 then none else some v
          | _ => none
        let exported := decide (name.headD ' ' = (name.headD ' ').toUpper)
        some { name := name
               type := typeStr.map GoFunctionParser.parseType
               isConst := isConst
               exported := exported
               value := value }
  else none

end GoFileParser

namespace GoFileParser

/-- The scan of a multi-line `import ( ... )` block in
`GoFileParser.parseImports`.  The fuel (always instantiated with more lines
than remain) stands in for the `while (i < lines.length)` loop, whose index
grows by one each iteration. -/
def importBlockLoop (lines : List Str) (startLine : Nat) :
    Nat → Nat → List GoImport → (List GoImport × Nat)
  | 0, _, acc => (acc, startLine + 1)
  | fuel + 1, i, acc =>
    if i < lines.length then
      let importLine := jsTrim (lines.getD i [])
      if importLine = (")".data) then (acc, i + 1)
      else
        let acc' :=
          if importLine ≠ [] ∧ ¬ ("//".data).isPrefixOf importLine then
            match matchAliasPath importLine with
            | some (a, p) => acc ++ [{ aliasName := a, path := p }]
            | none => acc
          else acc
        importBlockLoop lines startLine fuel (i + 1) acc'
    else (acc, startLine + 1)

/-- `GoFileParser.parseImports`. -/
def parseImports (lines : List Str) (startLine : Nat) :
    Except Unit (List GoImport × Nat) := do
  let raw ← lineAt lines startLine
  let line := jsTrim raw
  if jsIncludes ("\x22".data) line then
    match matchSingleImport line with
    | some (a, p) => return ([{ aliasName := a, path := p }], startLine + 1)
    | none => return ([], startLine + 1)
  else if line = ("import (".data) then
    return importBlockLoop lines startLine (lines.length + 1) (startLine + 1) []
  else
    return ([], startLine + 1)

/-- The `while (i < lines.length && !lines[i].includes('{')) i++` scans of
`parseStruct`/`parseInterface`. -/
def findBraceLine (lines : List Str) : Nat → Nat → Nat
  | 0, i => i
  | fuel + 1, i =>
    if i < lines.length then
      if jsIncludes ("\x7b".data) (lines.getD i []) then i
      else findBraceLine lines fuel (i + 1)
    else i

/-- The field-scanning loop of `GoFileParser.parseStruct` (brace counting,
comment skipping, `parseField` per remaining line). -/
def structFieldLoop (lines : List Str) :
    Nat → Nat → Nat → List GoField → List GoType → (List GoField × List GoType × Nat)
  | 0, i, _, fields, embedded => (fields, embedded, i)
  | fuel + 1, i, braceCount, fields, embedded =>
    if i < lines.length ∧ 0 < braceCount then
      let line := jsTrim (lines.getD i [])
      let step := fun (bc : Nat) =>
        if line = [] ∨ ("//".data).isPrefixOf line then
          structFieldLoop lines fuel (i + 1) bc fields embedded
        else
          match parseField line i (lines.getD i []) with
          | some field =>
            let embedded' :=
              if field.isEmbedded = some true then embedded ++ [field.type] else embedded
            structFieldLoop lines fuel (i + 1) bc (fields ++ [field]) embedded'
          | none => structFieldLoop lines fuel (i + 1) bc fields embedded
      let bc1 := if jsIncludes ("\x7b".data) line then braceCount + 1 else braceCount
      if jsIncludes ("\x7d".data) line then
        let bc2 := bc1 - 1
        if bc2 = 0 then (fields, embedded, i) else step bc2
      else step bc1
    else (fields, embedded, i)

/-- `GoFileParser.parseStruct`. -/
def parseStruct (name : Str) (lines : List Str) (startLine : Nat) :
    Except Unit (GoStruct × Nat) := do
  let firstLineText ← lineAt lines startLine
  let nameIndex := jsIndexOfSub name firstLineText
  let firstLine := jsTrim firstLineText
  let i0 :=
    if jsIncludes ("\x7b".data) firstLine then startLine + 1
    else findBraceLine lines (lines.length + 1) startLine + 1
  let (fields, embedded, iEnd) := structFieldLoop lines (lines.length + 1) i0 1 [] []
  return ({ name := name
            fields := fields
            methods := []
            embeddedTypes := some embedded
            namePosition := some { line := startLine, character := nameIndex.getD 0 }
            range := some { start := { line := startLine, character := 0 },
                            stop := { line := iEnd,
                                      character := ((lines.get? iEnd).map List.length).getD 0 } } },
          iEnd + 1)

/-- The method-scanning loop of `GoFileParser.parseInterface` (brace
counting, multi-line signature accumulation into `methodBuffer`). -/
def ifaceMethodLoop (lines : List Str) :
    Nat → Nat → Nat → Str → List GoMethodSignature → (List GoMethodSignature × Nat)
  | 0, i, _, _, methods => (methods, i)
  | fuel + 1, i, braceCount, methodBuffer, methods =>
    if i < lines.length ∧ 0 < braceCount then
      let line := jsTrim (lines.getD i [])
      let step := fun (bc : Nat) =>
        if line = [] ∨ ("//".data).isPrefixOf line then
          ifaceMethodLoop lines fuel (i + 1) bc methodBuffer methods
        else
          let buffer2 := methodBuffer ++ (" ".data) ++ line
          if jsIncludes (")".data) line ∨ i = lines.length - 1 then
            let methods2 :=
              match parseMethodSignature (jsTrim buffer2) with
              | some m => methods ++ [m]
              | none => methods
            ifaceMethodLoop lines fuel (i + 1) bc [] methods2
          else ifaceMethodLoop lines fuel (i + 1) bc buffer2 methods
      let bc1 := if jsIncludes ("\x7b".data) line then braceCount + 1 else braceCount
      if jsIncludes ("\x7d".data) line then
        let bc2 := bc1 - 1
        if bc2 = 0 then (methods, i) else step bc2
      else step bc1
    else (methods, i)

/-- `GoFileParser.parseInterface`. -/
def parseInterface (name : Str) (lines : List Str) (startLine : Nat) :
    Except Unit (GoInterface × Nat) := do
  let firstLineText ← lineAt lines startLine
  let firstLine := jsTrim firstLineText
  let i0 :=
    if jsIncludes ("\x7b".data) firstLine then startLine + 1
    else findBraceLine lines (lines.length + 1) startLine + 1
  let (methods, iEnd) := ifaceMethodLoop lines (lines.length + 1) i0 1 [] []
  return ({ name := name, methods := methods }, iEnd + 1)

/-- `GoFileParser.parseTypeDeclaration`. -/
def parseTypeDeclaration (lines : List Str) (startLine : Nat) :
    Except Unit (Option GoStruct × Option GoInterface × Nat) := do
  let raw ← lineAt lines startLine
  let line := jsTrim raw
  match matchTypeDecl ("struct".data) line with
  | some name =>
    let (st, nextLine) ← parseStruct name lines startLine
    return (some st, none, nextLine)
  | none =>
    match matchTypeDecl ("interface".data) line with
    | some name =>
      let (ifc, nextLine) ← parseInterface name lines startLine
      return (none, some ifc, nextLine)
    | none => return (none, none, startLine + 1)

/-- The brace-counting body skip of `GoFileParser.parseFunction`. -/
def skipFunctionBody (lines : List Str) : Nat → Nat → Nat → Nat
  | 0, i, _ => i
  | fuel + 1, i, braceCount =>
    if i < lines.length ∧ 0 < braceCount then
      let line := lines.getD i []
      let bc1 := if jsIncludes ("\x7b".data) line then braceCount + 1 else braceCount
      let bc2 := if jsIncludes ("\x7d".data) line then bc1 - 1 else bc1
      skipFunctionBody lines fuel (i + 1) bc2
    else i

/-- The signature-collecting loop of `GoFileParser.parseFunction`: lines are
concatenated (with no separator) until one contains `{`; everything from
that brace on is discarded and the body is skipped by brace counting. -/
def funcCollectLoop (lines : List Str) : Nat → Nat → Str → (Str × Nat)
  | 0, i, funcText => (funcText, i)
  | fuel + 1, i, funcText =>
    if i < lines.length then
      let line := lines.getD i []
      let funcText2 := funcText ++ line
      if jsIncludes ("\x7b".data) line then
        let braceIndex := (jsIndexOfChar '\x7b' funcText2).getD 0
        (jsTrim (funcText2.take braceIndex),
         skipFunctionBody lines (lines.length + 1) (i + 1) 1)
      else funcCollectLoop lines fuel (i + 1) funcText2
    else (funcText, i)

/-- `GoFileParser.parseFunction` (the file-level declaration scanner). -/
def parseFunction (lines : List Str) (startLine : Nat) : (Option GoFunction × Nat) :=
  let (funcText, nextLine) := funcCollectLoop lines (lines.length + 1) startLine []
  (GoFunctionParser.parseFunction funcText, nextLine)

/-- `struct.methods.push(func)` on the first struct whose name matches the
receiver; `none` when no struct matches. -/
def pushMethodToStruct (receiverTypeName : Str) (f : GoFunction) :
    List GoStruct → Option (List GoStruct)
  | [] => none
  | s :: rest =>
    if s.name = receiverTypeName then
      some ({ s with methods := s.methods ++ [f] } :: rest)
    else (pushMethodToStruct receiverTypeName f rest).map (s :: ·)

/-- The method-vs-function dispatch of `GoFileParser.parseFile` (lines
171-190 of goFileParser.ts): a parsed `func` is attached to a struct already
parsed when its receiver matches, and appended to the free-function list
otherwise. -/
def dispatchParsedFunc (goFile : GoFile) (func : GoFunction) : GoFile :=
  match func.receiver with
  | some receiver =>
    if func.isMethod then
      let receiverTypeName := jsReplaceFirst '*' receiver.type.name
      match pushMethodToStruct receiverTypeName func goFile.structs with
      | some structs' => { goFile with structs := structs' }
      | none => { goFile with functions := goFile.functions ++ [func] }
    else { goFile with functions := goFile.functions ++ [func] }
  | none => { goFile with functions := goFile.functions ++ [func] }

/-- The top-level line dispatch loop of `GoFileParser.parseFile`.  The fuel
(instantiated with `lines.length + 1`) stands in for the `while` loop; every
iteration advances the line index by at least one. -/
def parseFileLoop (lines : List Str) : Nat → Nat → GoFile → Except Unit GoFile
  | 0, _, goFile => Except.ok goFile
  | fuel + 1, i, goFile =>
    if i < lines.length then
      let line := jsTrim (lines.getD i [])
      if line = [] ∨ ("//".data).isPrefixOf line then
        parseFileLoop lines fuel (i + 1) goFile
      else if ("package ".data).isPrefixOf line then
        parseFileLoop lines fuel (i + 1) { goFile with packageName := parsePackage line }
      else if ("import ".data).isPrefixOf line then do
        let (imports, nextLine) ← parseImports lines i
        parseFileLoop lines fuel nextLine { goFile with imports := goFile.imports ++ imports }
      else if ("type ".data).isPrefixOf line then do
        let (st, ifc, nextLine) ← parseTypeDeclaration lines i
        let goFile' :=
          match st, ifc with
          | some s, _ => { goFile with structs := goFile.structs ++ [s] }
          | none, some it => { goFile with interfaces := goFile.interfaces ++ [it] }
          | none, none => goFile
        parseFileLoop lines fuel nextLine goFile'
      else if ("func ".data).isPrefixOf line then
        let (func, nextLine) := parseFunction lines i
        let goFile' :=
          match func with
          | some f => dispatchParsedFunc goFile f
          | none => goFile
        parseFileLoop lines fuel nextLine goFile'
      else if ("var ".data).isPrefixOf line then
        let goFile' :=
          match parseVariable line false with
          | some v => { goFile with vars := goFile.vars ++ [v] }
          | none => goFile
        parseFileLoop lines fuel (i + 1) goFile'
      else if ("const ".data).isPrefixOf line then
        let goFile' :=
          match parseVariable line true with
          | some c => { goFile with constants := goFile.constants ++ [c] }
          | none => goFile
        parseFileLoop lines fuel (i + 1) goFile'
      else parseFileLoop lines fuel (i + 1) goFile
    else Except.ok goFile

/-- `GoFileParser.parseFile`. -/
def parseFile (content : Str) : Except Unit GoFile :=
  let lines := jsSplitChar '\n' content
  parseFileLoop lines (lines.length + 1) 0
    { packageName := [], imports := [], structs := [], interfaces := [],
      functions := [], vars := [], constants := [] }

end GoFileParser

namespace TreeSitterGoParser

/-- The method-attachment pass at the end of `parseFile` in
treeSitterGoParser.ts (lines 299-311): after the whole file has been walked,
each parsed method is attached to the struct matching its receiver (pointer
qualifier stripped); unmatched receivers stay in the free-function list.
The `filter` with its `push` side effect is modelled as a left fold. -/
def attachMethodsToStructs (structs : List GoStruct) (functions : List GoFunction) :
    List GoStruct × List GoFunction :=
  functions.foldl (fun acc fn =>
    match fn.receiver with
    | some receiver =>
      if fn.isMethod then
        let receiverType := stripLeading '*' receiver.type.name
        match GoFileParser.pushMethodToStruct receiverType fn acc.1 with
        | some structs' => (structs', acc.2)
        | none => (acc.1, acc.2 ++ [fn])
      else (acc.1, acc.2 ++ [fn])
    | none => (acc.1, acc.2 ++ [fn])) (structs, [])

end TreeSitterGoParser

/-- `GoplsTypeInfo` from goplsProvider.ts. -/
structure GoplsTypeInfo where
  signature : Str
  isInterface : Bool
  isStruct : Bool
  isFunction : Bool
  packagePath : Option Str := none
  documentation : Option Str := none

/-- `CacheEntry` from typeCache.ts. -/
structure CacheEntry where
  info : GoplsTypeInfo
  timestamp : Nat

/-- `TypeCache` from typeCache.ts: the `Map` field, with `Date.now()`
passed explicitly. -/
structure TypeCache where
  cache : List (Str × CacheEntry)

namespace TypeCache

/-- `TypeCache.TTL_MS` (5 minutes). -/
def TTL_MS : Nat := 5 * 60 * 1000

/-- `new TypeCache()`. -/
def empty : TypeCache := { cache := [] }

/-- `TypeCache.makeKey`. -/
def makeKey (uri : Str) (line character : Nat) : Str :=
  uri ++ (":".data) ++ natStr line ++ (":".data) ++ natStr character

/-- `TypeCache.get` (the deletion of an expired entry is part of the
returned cache). -/
def get (c : TypeCache) (uri : Str) (line character : Nat) (now : Nat) :
    Option GoplsTypeInfo × TypeCache :=
  let key := makeKey uri line character
  match mapGet key c.cache with
  | none => (none, c)
  | some entry =>
    if now - entry.timestamp > TTL_MS then (none, { cache := mapDelete key c.cache })
    else (some entry.info, c)

/-- `TypeCache.set`. -/
def set (c : TypeCache) (uri : Str) (line character : Nat) (info : GoplsTypeInfo)
    (now : Nat) : TypeCache :=
  { cache := mapSet (makeKey uri line character) { info := info, timestamp := now } c.cache }

/-- `TypeCache.invalidate`: removes every entry whose key starts with
`uri + ':'`. -/
def invalidate (c : TypeCache) (uri : Str) : TypeCache :=
  { cache := c.cache.filter (fun kv => ¬ (uri ++ (":".data)).isPrefixOf kv.1) }

end TypeCache

/-- The outcomes of the `vscode.commands.executeCommand` calls raced against
a timeout in goplsProvider.ts: `.error` covers a timeout rejection or a
provider exception, `.ok` the resolved list of hovers / locations (hover
payloads and definition locations are abstracted to strings). -/
structure GoplsWorld where
  executeHover : Str → SourcePosition → Except Unit (List Str)
  executeTypeDef : Str → SourcePosition → Except Unit (List Str)

namespace GoplsProvider

/-- `GoplsProvider.getHoverInfo`: the try/catch around the raced command
returns `undefined` on any failure and the first hover otherwise. -/
def getHoverInfo (w : GoplsWorld) (documentUri : Str) (position : SourcePosition) :
    Option Str :=
  match w.executeHover documentUri position with
  | .error _ => none
  | .ok hovers => if hovers.length > 0 then some (hovers.headD []) else none

/-- `GoplsProvider.getTypeDefinition`: same failure containment for the
type-definition query. -/
def getTypeDefinition (w : GoplsWorld) (documentUri : Str) (position : SourcePosition) :
    Option Str :=
  match w.executeTypeDef documentUri position with
  | .error _ => none
  | .ok definitions => if definitions.length > 0 then some (definitions.headD []) else none

end GoplsProvider

/-- `ResolvedType` from lspTypeResolver.ts, restricted to the fields read by
`TypeDependencyResolver.resolveType` (the `typeInfo` payload is never
inspected there); `location` is the location's uri. -/
structure ResolvedType where
  struct : Option GoStruct := none
  iface : Option GoInterface := none
  sourceUri : Option Str := none
  importPath : Option Str := none
  goFile : Option GoFile := none
  location : Option Str := none

/-- `TypeNode` from typeDependencyResolver.ts (recursive through the
`dependencies` list, which the source never appends to). -/
inductive TypeNode where
  | mk (type : GoType) (struct : Option GoStruct) (iface : Option GoInterface)
       (sourceUri : Option Str) (importPath : Option Str) (isExternal : Bool)
       (dependencies : List TypeNode)

/-- `node.sourceUri = resolved.sourceUri; node.importPath = resolved.importPath`. -/
def TypeNode.setResolvedInfo : TypeNode → Option Str → Option Str → TypeNode
  | .mk t st ifc _ _ ex dep, su, ip => .mk t st ifc su ip ex dep

/-- `node.struct = resolved.struct; node.type.isStruct = true`. -/
def TypeNode.attachStruct : TypeNode → GoStruct → TypeNode
  | .mk t _ ifc su ip ex dep, s => .mk t.setIsStruct (some s) ifc su ip ex dep

/-- `node.iface = resolved.iface; node.type.isInterface = true`. -/
def TypeNode.attachInterface : TypeNode → GoInterface → TypeNode
  | .mk t st _ su ip ex dep, ifc => .mk t.setIsInterface st (some ifc) su ip ex dep

/-- The mutable per-walk state of `TypeDependencyResolver`: the `visited`
set together with the `TypeDependencyGraph` being built. -/
structure RState where
  visited : List Str
  nodes : List TypeNode
  externalStructs : List GoStruct
  externalInterfaces : List GoInterface
  typeMap : List (Str × TypeNode)

/-- The empty graph built at the start of `resolveFileDependencies`. -/
def RState.empty : RState :=
  { visited := [], nodes := [], externalStructs := [], externalInterfaces := [], typeMap := [] }

/-- `ResolutionOptions` from typeDependencyResolver.ts. -/
structure ResolutionOptions where
  maxDepth : Option Nat := none
  resolveStdlib : Option Bool := none
  timeout : Option Nat := none

/-- The injectable asynchronous environment of the resolver: the
`LspTypeResolver.resolveAtPosition` oracle and
`vscode.workspace.openTextDocument` (returning the opened document's uri),
each able to fail (`.error`). -/
structure ResolverWorld where
  resolveAtPosition : Str → SourcePosition → Except Unit (Option ResolvedType)
  openTextDocument : Str → Except Unit Str

/-- JS truthiness of an optional string: `undefined` and `''` are falsy. -/
def strTruthy : Option Str → Option Str
  | some u => if u = [] then none else some u
  | none => none

namespace TypeDependencyResolver

/-- `STDLIB_PACKAGES` from typeDependencyResolver.ts. -/
def STDLIB_PACKAGES : List Str :=
  [("fmt".data), ("io".data), ("os".data), ("net".data), ("http".data), ("context".data),
   ("sync".data), ("time".data), ("strings".data), ("bytes".data), ("bufio".data),
   ("encoding".data), ("json".data), ("xml".data), ("errors".data), ("log".data),
   ("path".data), ("filepath".data), ("regexp".data), ("sort".data), ("strconv".data),
   ("unicode".data), ("crypto".data), ("hash".data), ("math".data), ("reflect".data)]

/-- `BUILTIN_TYPES` from typeDependencyResolver.ts. -/
def BUILTIN_TYPES : List Str :=
  [("int".data), ("int8".data), ("int16".data), ("int32".data), ("int64".data),
   ("uint".data), ("uint8".data), ("uint16".data), ("uint32".data), ("uint64".data),
   ("float32".data), ("float64".data), ("bool".data), ("string".data), ("rune".data),
   ("byte".data), ("error".data), ("interface\x7b\x7d".data), ("any".data),
   ("uintptr".data), ("complex64".data), ("complex128".data)]

/-- `TypeDependencyResolver.getBaseTypeName`: strips a leading pointer,
slice and variadic marker (three independent `if`s, in that order). -/
def getBaseTypeName (type : GoType) : Str :=
  let name := type.name
  let name := if ("*".data).isPrefixOf name then name.drop 1 else name
  let name := if ("[]".data).isPrefixOf name then name.drop 2 else name
  let name := if ("...".data).isPrefixOf name then name.drop 3 else name
  name

/-- `TypeDependencyResolver.makeTypeKey` (package path, else uri, else bare
name; JS truthiness for the optional strings). -/
def makeTypeKey (typeName : Str) (packagePath : Option Str) (uri : Option Str) : Str :=
  match strTruthy packagePath with
  | some pp => pp ++ (".".data) ++ typeName
  | none =>
    match strTruthy uri with
    | some u => u ++ ("#".data) ++ typeName
    | none => typeName

/-- The guarded push
`if (!graph.externalStructs.some(s => s.name === resolved.struct.name)) push`. -/
def addExternalStruct (l : List GoStruct) (s : GoStruct) : List GoStruct :=
  if l.any (fun x => x.name == s.name) then l else l ++ [s]

/-- The guarded push for `graph.externalInterfaces`. -/
def addExternalInterface (l : List GoInterface) (ifc : GoInterface) : List GoInterface :=
  if l.any (fun x => x.name == ifc.name) then l else l ++ [ifc]

/-- `resolved.sourceUri && resolved.sourceUri !== currentUri`. -/
def isForeignSource (sourceUri : Option Str) (currentUri : Str) : Bool :=
  match strTruthy sourceUri with
  | some u => u ≠ currentUri
  | none => false

/-- `TypeDependencyResolver.resolveType`, fuelled.  The fuel stands for
`maxDepth + 1 - depth` (each recursive call passes `depth + 1`), so the
`fuel = 0` arm coincides with the `depth > maxDepth` guard whenever the
function is entered through `resolveType`/`resolveFileDependencies` below.
The `try { ... } catch { console.warn }` block is modelled by an
`Except`-valued body whose `.error` carries the state reached when the
exception was raised; the `catch` merges both outcomes. -/
def resolveTypeF (w : ResolverWorld) : Nat → GoType → Str → SourcePosition → Nat → Nat →
    Str → List (Str × Str) → ResolutionOptions → RState → RState
  | 0, _, _, _, _, _, _, _, _, st => st
  | fuel + 1, type, documentUri, position, depth, maxDepth, currentUri, importMap, options, st =>
    if depth > maxDepth then st
    else
      let baseTypeName := getBaseTypeName type
      if BUILTIN_TYPES.contains baseTypeName then st
      else
        let typeKey := makeTypeKey baseTypeName type.packagePath (some currentUri)
        if st.visited.contains typeKey then st
        else
          let st1 := { st with visited := st.visited ++ [typeKey] }
          let qualified := resolveQualifiedType baseTypeName importMap
          let isExternal := qualified.isSome || type.packagePath.isSome
          if (!(options.resolveStdlib.getD false) &&
              (match qualified with
               | some q => STDLIB_PACKAGES.contains q.packageAlias
               | none => false)) then st1
          else
            let node0 : TypeNode := .mk type none none none none isExternal []
            let tryResult : Except (TypeNode × RState) (TypeNode × RState) :=
              match w.resolveAtPosition documentUri position with
              | .error _ => .error (node0, st1)
              | .ok none => .ok (node0, st1)
              | .ok (some resolved) =>
                let node1 := node0.setResolvedInfo resolved.sourceUri resolved.importPath
                let afterStruct : Except (TypeNode × RState) (TypeNode × RState) :=
                  match resolved.struct with
                  | some s =>
                    let node2 := node1.attachStruct s
                    let st2 :=
                      if isForeignSource resolved.sourceUri currentUri then
                        { st1 with externalStructs := addExternalStruct st1.externalStructs s }
                      else st1
                    match resolved.goFile with
                    | some gf =>
                      let nestedImportMap := buildImportAliasMap gf
                      let nestedDocE : Except Unit Str :=
                        match resolved.location with
                        | some loc => w.openTextDocument loc
                        | none => .ok documentUri
                      match nestedDocE with
                      | .error _ => .error (node2, st2)
                      | .ok nestedDoc =>
                        let stF := s.fields.foldl (fun (acc : RState) (field : GoField) =>
                          match field.typePosition with
                          | some tp =>
                            resolveTypeF w fuel field.type nestedDoc tp (depth + 1) maxDepth
                              ((strTruthy resolved.sourceUri).getD currentUri)
                              nestedImportMap options acc
                          | none => acc) st2
                        .ok (node2, stF)
                    | none => .ok (node2, st2)
                  | none => .ok (node1, st1)
                match afterStruct with
                | .error e => .error e
                | .ok (nodeA, stA) =>
                  match resolved.iface with
                  | some ifc =>
                    let nodeB := nodeA.attachInterface ifc
                    let stB :=
                      if isForeignSource resolved.sourceUri currentUri then
                        { stA with
                          externalInterfaces := addExternalInterface stA.externalInterfaces ifc }
                      else stA
                    match resolved.goFile with
                    | some gf =>
                      let nestedImportMap := buildImportAliasMap gf
                      let nestedDocE : Except Unit Str :=
                        match resolved.location with
                        | some loc => w.openTextDocument loc
                        | none => .ok documentUri
                      match nestedDocE with
                      | .error _ => .error (nodeB, stB)
                      | .ok nestedDoc =>
                        let stF := ifc.methods.foldl (fun (acc : RState) (method : GoMethodSignature) =>
                          let acc1 := method.parameters.foldl (fun a param =>
                            match param.typePosition with
                            | some tp =>
                              resolveTypeF w fuel param.type nestedDoc tp (depth + 1) maxDepth
                                ((strTruthy resolved.sourceUri).getD currentUri)
                                nestedImportMap options a
                            | none => a) acc
                          method.returnTypes.foldl (fun (a : RState) (rt : GoType) =>
                            match rt.position with
                            | some rp =>
                              resolveTypeF w fuel rt nestedDoc rp (depth + 1) maxDepth
                                ((strTruthy resolved.sourceUri).getD currentUri)
                                nestedImportMap options a
                            | none => a) acc1) stB
                        .ok (nodeB, stF)
                    | none => .ok (nodeB, stB)
                  | none => .ok (nodeA, stA)
            let nodeSt :=
              match tryResult with
              | .ok x => x
              | .error x => x
            let node := nodeSt.1
            let st3 := nodeSt.2
            let st4 :=
              if type.isMap then
                let stK :=
                  match type.keyType with
                  | some kt =>
                    resolveTypeF w fuel kt documentUri (kt.position.getD position) (depth + 1)
                      maxDepth currentUri importMap options st3
                  | none => st3
                match type.valueType with
                | some vt =>
                  resolveTypeF w fuel vt documentUri (vt.position.getD position) (depth + 1)
                    maxDepth currentUri importMap options stK
                | none => stK
              else st3
            { st4 with nodes := st4.nodes ++ [node],
                       typeMap := mapSet baseTypeName node st4.typeMap }

/-- `TypeDependencyResolver.resolveType` (the fuel is exactly
`maxDepth + 1 - depth`, matching the `depth > maxDepth` guard). -/
def resolveType (w : ResolverWorld) (type : GoType) (documentUri : Str)
    (position : SourcePosition) (depth maxDepth : Nat) (currentUri : Str)
    (importMap : List (Str × Str)) (options : ResolutionOptions) (st : RState) : RState :=
  resolveTypeF w (maxDepth + 1 - depth) type documentUri position depth maxDepth currentUri
    importMap options st

/-- `TypeDependencyResolver.collectTypesFromFunction`. -/
def collectTypesFromFunction (func : GoFunction) : List (GoType × Option SourcePosition) :=
  func.parameters.map (fun p => (p.type, p.typePosition)) ++
    func.returnTypes.map (fun rt => (rt, rt.position))

/-- `TypeDependencyResolver.resolveFileDependencies`: collects every type
reference reachable from struct fields and methods, interface methods,
package-level functions and variables/constants, then resolves each from a
fresh visited set and graph. -/
def resolveFileDependencies (w : ResolverWorld) (goFile : GoFile) (documentUri : Str)
    (options : ResolutionOptions) : RState :=
  let maxDepth := options.maxDepth.getD 3
  let importMap := buildImportAliasMap goFile
  let currentUri := documentUri
  let typesToResolve : List (GoType × Option SourcePosition) :=
    goFile.structs.flatMap (fun s =>
      s.fields.map (fun f => (f.type, f.typePosition)) ++
        s.methods.flatMap collectTypesFromFunction) ++
    goFile.interfaces.flatMap (fun it =>
      it.methods.flatMap (fun m =>
        m.parameters.map (fun p => (p.type, p.typePosition)) ++
          m.returnTypes.map (fun rt => (rt, rt.position)))) ++
    goFile.functions.flatMap collectTypesFromFunction ++
    (goFile.vars ++ goFile.constants).filterMap (fun v =>
      v.type.map (fun t => (t, v.typePosition)))
  typesToResolve.foldl (fun st p =>
    resolveTypeF w (maxDepth + 1) p.1 documentUri (p.2.getD { line := 0, character := 0 }) 0
      maxDepth currentUri importMap options st) RState.empty

end TypeDependencyResolver

section CyclicFixtures

def tB0 : GoType := GoType.plain ("B".data) false false false false none none
def tA0 : GoType := GoType.plain ("A".data) false false false false none none
def p1 : SourcePosition := { line := 1, character := 1 }
def p2 : SourcePosition := { line := 2, character := 2 }

def structA0 : GoStruct :=
  { name := ("A".data), methods := []
    fields := [{ name := ("b".data), type := tB0, exported := false, typePosition := some p1 }] }

def structB0 : GoStruct :=
  { name := ("B".data), methods := []
    fields := [{ name := ("a".data), type := tA0, exported := false, typePosition := some p2 }] }

def gfA0 : GoFile :=
  { packageName := ("main".data), imports := [], structs := [structA0], interfaces := [],
    functions := [], vars := [], constants := [] }

def gfB0 : GoFile :=
  { packageName := ("b".data), imports := [], structs := [structB0], interfaces := [],
    functions := [], vars := [], constants := [] }

def cyclicWorld : ResolverWorld :=
  { resolveAtPosition := fun _ pos =>
      if pos = p1 then
        Except.ok (some { struct := some structB0, sourceUri := some ("file:///b.go".data),
                          goFile := some gfB0, location := some ("file:///b.go".data) })
      else if pos = p2 then
        Except.ok (some { struct := some structA0, sourceUri := some ("file:///main.go".data),
                          goFile := some gfA0, location := some ("file:///main.go".data) })
      else Except.ok none
    openTextDocument := fun uri => Except.ok uri }

end CyclicFixtures

/-- A concrete `GoplsTypeInfo` payload used by the cache theorems. -/
def sampleTypeInfo : GoplsTypeInfo :=
  { signature := ("type A struct".data), isInterface := false, isStruct := true,
    isFunction := false }

/-- A line opens a (nested) wrapper-class declaration. -/
def isWrapperHeader (l : Str) : Bool := ("public static class ".data).isPrefixOf l

/-- The parsed model of `func add(a int, b int) (int, error)`, used by the
C1 and C5 witnesses. -/
def addGoFunction : GoFunction :=
  (GoFunctionParser.parseFunction ("func add(a int, b int) (int, error)".data)).getD
    { name := [], parameters := [], returnTypes := [], isMethod := false, receiver := none,
      hasErrorReturn := false }

/-- The right-trim half of `jsTrim` (no trailing whitespace). -/
def jsTrimRight (s : Str) : Str := (s.reverse.dropWhile isWS).reverse

/-- The eight unboxed Java primitive target-type tokens named by the claim. -/
def javaPrimitiveTokens : List Str :=
  [("int".data), ("byte".data), ("short".data), ("long".data),
   ("float".data), ("double".data), ("boolean".data), ("char".data)]

/-- Maximal runs of word characters (`\w`) in a string, accumulator-based so
it is structurally recursive. -/
def wordTokensGo : Str → Str → List Str
  | [], acc => if acc.isEmpty then [] else [acc.reverse]
  | c :: cs, acc =>
    if isWordChar c then wordTokensGo cs (c :: acc)
    else if acc.isEmpty then wordTokensGo cs []
    else acc.reverse :: wordTokensGo cs []

/-- All word tokens of a string. -/
def wordTokens (s : Str) : List Str := wordTokensGo s []

/-- The text between the first `<` and the last `>` of a rendered container
type: the container's angle-bracket arguments. -/
def angleInner (s : Str) : Str :=
  let t := (s.dropWhile (fun c => decide (c ≠ '<'))).drop 1
  ((t.reverse.dropWhile (fun c => decide (c ≠ '>'))).drop 1).reverse

/-- The `numbers ...int` parameter of the claim's Scenario 2. -/
def C5Param : GoParameter :=
  { name := ("numbers".data), type := GoFunctionParser.parseType ("...int".data) }

/-- The `sum(numbers ...int) int` function of the claim's Scenario 2. -/
def C5Func : GoFunction :=
  { name := ("sum".data), parameters := [C5Param],
    returnTypes := [GoFunctionParser.parseType ("int".data)],
    isMethod := false, receiver := none, hasErrorReturn := false }

/-- A one-method interface whose method is the claim's Scenario 2 signature. -/
def C5Iface : GoInterface :=
  { name := ("Summer".data),
    methods := [{ name := ("sum".data), parameters := [C5Param],
                  returnTypes := [GoFunctionParser.parseType ("int".data)] }] }

/-- File-generation options with comments off. -/
def C5FileOptions : JavaFileGenerationOptions :=
  { isStatic := true, addComments := false, handleErrorsAsExceptions := true }

/-- The single unparsable `func` line used to witness C9. -/
def C9Lines : List Str := [("func broken((".data)]

/-- An empty source-unit accumulator. -/
def C9File : GoFile :=
  { packageName := [], imports := [], structs := [], interfaces := [],
    functions := [], vars := [], constants := [] }

/-- A source file declaring the method `Inc` BEFORE its receiver struct. -/
def C10MethodFirst : Str :=
  ("package main\n\nfunc (c Counter) Inc() int \x7b\n\treturn 1\n\x7d\n\ntype Counter struct \x7b\n\tValue int\n\x7d\n".data)

/-- The same file with the struct declared before the method. -/
def C10StructFirst : Str :=
  ("package main\n\ntype Counter struct \x7b\n\tValue int\n\x7d\n\nfunc (c Counter) Inc() int \x7b\n\treturn 1\n\x7d\n".data)

/-- The `Inc` method as the declaration parser produces it. -/
def C10IncFunc : GoFunction :=
  (GoFunctionParser.parseFunction ("func (c Counter) Inc() int".data)).getD
    { name := [], parameters := [], returnTypes := [], isMethod := false,
      receiver := none, hasErrorReturn := false }

/-- The receiver parameter of `C10IncFunc`. -/
def C10Recv : GoParameter :=
  { name := ("c".data), type := GoFunctionParser.parseType ("Counter".data) }

/-- A unit with no structs parsed yet (the state when the scanner meets a
method before its struct). -/
def C10EmptyFile : GoFile :=
  { packageName := ("main".data), imports := [], structs := [], interfaces := [],
    functions := [], vars := [], constants := [] }

/-- The `Counter` struct with no methods. -/
def C10CounterStruct : GoStruct :=
  { name := ("Counter".data), fields := [], methods := [] }

/-- Both external-declaration lists hold pairwise-distinct names. -/
def nodupExternalNames (st : RState) : Prop :=
  (st.externalStructs.map GoStruct.name).Nodup
  ∧ (st.externalInterfaces.map GoInterface.name).Nodup

/-- An `RState` whose visited set already holds the key for type `B` of the
cyclic example. -/
def C7VisState : RState :=
  { RState.empty with visited := [("file:///main.go#B".data)] }

/-- A gopls world whose raced commands always fail (timeout or provider
exception). -/
def C8ErrWorld : GoplsWorld :=
  { executeHover := fun _ _ => Except.error (),
    executeTypeDef := fun _ _ => Except.error () }

/-- A resolver world whose oracle always fails. -/
def C8ResErrWorld : ResolverWorld :=
  { resolveAtPosition := fun _ _ => Except.error (),
    openTextDocument := fun u => Except.ok u }

/-- A resolver world whose oracle always succeeds with no resolution. -/
def C8ResNoneWorld : ResolverWorld :=
  { resolveAtPosition := fun _ _ => Except.ok none,
    openTextDocument := fun u => Except.ok u }

/-- A resolver world that resolves `B` but whose document reads all fail. -/
def C8FailDocWorld : ResolverWorld :=
  { resolveAtPosition := fun _ pos =>
      if pos = p1 then
        Except.ok (some { struct := some structB0, sourceUri := some ("file:///b.go".data),
                          goFile := some gfB0, location := some ("file:///b.go".data) })
      else Except.ok none,
    openTextDocument := fun _ => Except.error () }

/-! ### General helper lemmas -/

theorem mapGet_mapSet {α : Type} (k : Str) (v : α) (m : List (Str × α)) :
    mapGet k (mapSet k v m) = some v := by
  induction m with
  | nil => simp [mapSet, mapGet]
  | cons kv rest ih =>
    obtain ⟨k', v'⟩ := kv
    by_cases h : k' = k
    · simp [mapSet, mapGet, h]
    · simp [mapSet, mapGet, h, ih]

theorem jsJoin_cons_ne_nil (sep x : Str) (xs : List Str) (h : x ≠ []) :
    jsJoin sep (x :: xs) ≠ [] := by
  cases xs with
  | nil => simpa [jsJoin] using h
  | cons y ys => simp [jsJoin, h]

theorem isPrefixOf_append_self (p q : Str) : p.isPrefixOf (p ++ q) = true := by
  simp [List.isPrefixOf_iff_prefix]

theorem isPrefixOf_head_ne {a b : Char} (p q : Str) (h : a ≠ b) :
    (a :: p).isPrefixOf (b :: q) = false := by
  rw [Bool.eq_false_iff]
  intro hc
  rw [List.isPrefixOf_iff_prefix, List.cons_prefix_cons] at hc
  exact h hc.1

/-- Counting elements that survive an `enum`-indexed `filterMap` whose guard
only inspects the element. -/
theorem length_filterMap_enumFrom {α β : Type} (pred : α → Prop) [DecidablePred pred]
    (f : Nat × α → β) :
    ∀ (n : Nat) (l : List α),
      ((l.enumFrom n).filterMap (fun p => if pred p.2 then none else some (f p))).length =
        (l.filter (fun x => decide (¬ pred x))).length := by
  intro n l
  induction l generalizing n with
  | nil => simp
  | cons x xs ih =>
    by_cases h : pred x
    · simp [List.enumFrom_cons, List.filterMap_cons, List.filter_cons, h, ih]
    · simp [List.enumFrom_cons, List.filterMap_cons, List.filter_cons, h, ih]

theorem foldl_preserves {α σ : Type} (P : σ → Prop) (f : σ → α → σ)
    (hf : ∀ s x, P s → P (f s x)) :
    ∀ (l : List α) (s : σ), P s → P (l.foldl f s) := by
  intro l
  induction l with
  | nil => intro s hs; exact hs
  | cons x xs ih => intro s hs; exact ih (f s x) (hf s x hs)

theorem foldl_ext {α σ : Type} (f g : σ → α → σ) (hfg : ∀ s x, f s x = g s x) :
    ∀ (l : List α) (s : σ), l.foldl f s = l.foldl g s := by
  intro l
  induction l with
  | nil => intro s; rfl
  | cons x xs ih => intro s; simp only [List.foldl_cons, hfg, ih]

namespace GoFunctionParser

theorem mapMatchAt_bounds {s k v : Str} (h : mapMatchAt s = some (k, v)) :
    k.length < s.length ∧ v.length < s.length := by
  unfold mapMatchAt at h
  split at h
  · rename_i hpre
    simp only [] at h
    split at h
    · rename_i i hfind
      have hp := List.find?_some hfind
      have hmem := List.mem_of_find?_eq_some hfind
      simp only [Bool.and_eq_true, decide_eq_true_eq] at hp
      obtain ⟨⟨⟨⟨h1, _⟩, h3⟩, _⟩, _⟩ := hp
      injection h with h'
      injection h' with hk hv
      subst hk; subst hv
      have hlen : (s.drop 4).length = s.length - 4 := List.length_drop 4 s
      have hs4 : 4 ≤ s.length := by
        have := hpre
        have : ("map[".data).length ≤ s.length := List.IsPrefix.length_le
          (List.isPrefixOf_iff_prefix.mp hpre)
        simpa using this
      constructor
      · have : (List.take i (s.drop 4)).length ≤ i := by
          simp [List.length_take]
        omega
      · have h5 : (List.takeWhile (fun c => c ≠ '\n') ((s.drop 4).drop (i + 1))).length ≤
            ((s.drop 4).drop (i + 1)).length := (List.takeWhile_sublist _).length_le
        have h6 : ((s.drop 4).drop (i + 1)).length = (s.drop 4).length - (i + 1) :=
          List.length_drop _ _
        omega
    · exact absurd h (by simp)
  · exact absurd h (by simp)
theorem jsMatchMapType_bounds {s k v : Str} (h : jsMatchMapType s = some (k, v)) :
    k.length < s.length ∧ v.length < s.length := by
  induction s with
  | nil => simp [jsMatchMapType] at h
  | cons c cs ih =>
    unfold jsMatchMapType at h
    split at h
    · rename_i r hat
      injection h with h'
      subst h'
      exact mapMatchAt_bounds hat
    · have := ih h
      constructor <;> [skip; skip] <;> simp [List.length_cons] <;> omega
theorem jsTrim_length_le (s : Str) : (jsTrim s).length ≤ s.length := by
  unfold jsTrim
  have h1 : (s.dropWhile isWS).length ≤ s.length := (List.dropWhile_sublist _).length_le
  have h2 : (((s.dropWhile isWS).reverse).dropWhile isWS).length ≤
      ((s.dropWhile isWS).reverse).length := (List.dropWhile_sublist _).length_le
  simp only [List.length_reverse] at *
  omega

end GoFunctionParser

/-! ### C6 — cache TTL boundary -/

/-- C6: the claim says a read at any time `t ≥ T + TTL` is a miss.  At
exactly `t = T + TTL` (here `T = 0`, `t = 300000 = TTL_MS`) the code's test
`now - timestamp > TTL_MS` is false and the stored value is returned: a hit,
refuting the claim at this input. -/
theorem C6_counterexample :
    (TypeCache.get
        (TypeCache.set TypeCache.empty ("file:///a.go".data) 1 2 sampleTypeInfo 0)
        ("file:///a.go".data) 1 2 300000).1 = some sampleTypeInfo := rfl

/-- C6 (amended): a `get` on the key just written at time `T`, with no
invalidation in between, hits for every read time `t ≤ T + TTL` (boundary
included) and misses for every `t > T + TTL`. -/
theorem C6_cache_ttl (c : TypeCache) (uri : Str) (line character : Nat)
    (info : GoplsTypeInfo) (T t : Nat) :
    (TypeCache.get (TypeCache.set c uri line character info T) uri line character t).1 =
      if t ≤ T + TypeCache.TTL_MS then some info else none := by
  unfold TypeCache.get TypeCache.set
  simp only [mapGet_mapSet]
  by_cases h : t ≤ T + TypeCache.TTL_MS
  · rw [if_neg (by omega), if_pos h]
  · rw [if_pos (by omega), if_neg h]

/-! ### C2 — the `add(a int, b int) (int, error)` scenario -/

/-- C2: for the input `func add(a int, b int) (int, error)` the generator
produces two `int` parameters, return type `int` and a `throws Exception`
clause (as the claim states), but the body is `return new AddResult();` —
not the claimed default-zero stub `return 0;` — because
`generateMethodBody` branches on the length of the full return-type list
(2, error included) while `getReturnType` filters the error out.  The
declared return type `int` and the body are thus inconsistent. -/
theorem C2_add_scenario :
    (GoFunctionParser.parseFunction ("func add(a int, b int) (int, error)".data)).map
        (fun f => (JavaCodeGenerator.generateParameterList f,
                   JavaCodeGenerator.getReturnType f defaultJavaOptions,
                   JavaCodeGenerator.generateMethodSignature f defaultJavaOptions,
                   JavaCodeGenerator.generateMethodBody f defaultJavaOptions)) =
      some (("int a, int b".data), ("int".data),
            ("    public static int add(int a, int b) throws Exception \x7b".data),
            ("    return new AddResult();\n\x7d".data)) := by decide

/-! ### C1 — result-wrapper law -/

theorem jsJoin_cons_eq_append (sep x : Str) (xs : List Str) :
    ∃ t, jsJoin sep (x :: xs) = x ++ t := by
  cases xs with
  | nil => exact ⟨[], by simp [jsJoin]⟩
  | cons y ys => exact ⟨sep ++ jsJoin sep (y :: ys), by simp [jsJoin]⟩

theorem isWrapperHeader_nil : isWrapperHeader [] = false := by decide

theorem isWrapperHeader_space (t : Str) : isWrapperHeader (' ' :: t) = false := by
  show (("public static class ".data)).isPrefixOf (' ' :: t) = false
  rw [show ("public static class ".data) = 'p' :: ("ublic static class ".data) from rfl]
  exact isPrefixOf_head_ne _ _ (by decide)

theorem isWrapperHeader_slash (t : Str) : isWrapperHeader ('/' :: t) = false := by
  show (("public static class ".data)).isPrefixOf ('/' :: t) = false
  rw [show ("public static class ".data) = 'p' :: ("ublic static class ".data) from rfl]
  exact isPrefixOf_head_ne _ _ (by decide)

theorem isWrapperHeader_append (x : Str) :
    isWrapperHeader (("public static class ".data) ++ x) = true :=
  isPrefixOf_append_self _ _

theorem isPrefixOf_append_same (A p q : Str) :
    (A ++ p).isPrefixOf (A ++ q) = p.isPrefixOf q := by
  induction A with
  | nil => rfl
  | cons a as ih => simpa using ih

theorem isWrapperHeader_public_class (x : Str) :
    isWrapperHeader (("public class ".data) ++ x) = false := by
  show (("public static class ".data)).isPrefixOf (("public class ".data) ++ x) = false
  rw [show ("public static class ".data) =
        ("public ".data) ++ ("static class ".data) from rfl,
      show ("public class ".data) ++ x = ("public ".data) ++ (("class ".data) ++ x) from rfl,
      isPrefixOf_append_same]
  rw [show ("static class ".data) = 's' :: ("tatic class ".data) from rfl,
      show ("class ".data) ++ x = 'c' :: (("lass ".data) ++ x) from rfl]
  exact isPrefixOf_head_ne _ _ (by decide)

theorem resultFieldLines_no_header (g : GoFunction) :
    ∀ l ∈ JavaCodeGenerator.resultFieldLines g, isWrapperHeader l = false := by
  intro l hl
  simp only [JavaCodeGenerator.resultFieldLines, List.mem_filterMap] at hl
  obtain ⟨⟨i, rt⟩, _, heq⟩ := hl
  split at heq
  · exact absurd heq (by simp)
  · rw [Option.some_inj] at heq
    rw [← heq]
    exact isWrapperHeader_space _

theorem resultAccessorBlock_no_header (total i : Nat) (rt : GoType) :
    ∀ l ∈ JavaCodeGenerator.resultAccessorBlock total i rt, isWrapperHeader l = false := by
  intro l hl
  simp only [JavaCodeGenerator.resultAccessorBlock, List.mem_append, List.mem_cons,
    List.not_mem_nil, or_false] at hl
  by_cases hc : i < total - 1
  · simp only [hc, if_true, List.mem_singleton] at hl
    rcases hl with (h | h | h | h | h | h | h) | h <;> subst h <;>
      first
        | exact isWrapperHeader_space _
        | exact isWrapperHeader_nil
  · simp only [hc, if_false, List.not_mem_nil, or_false] at hl
    rcases hl with h | h | h | h | h | h | h <;> subst h <;>
      first
        | exact isWrapperHeader_space _
        | exact isWrapperHeader_nil

theorem resultAccessorBlocksFlatten_no_header (g : GoFunction) :
    ∀ l ∈ (JavaCodeGenerator.resultAccessorBlocks g).flatten, isWrapperHeader l = false := by
  intro l hl
  rw [List.mem_flatten] at hl
  obtain ⟨blk, hblk, hlblk⟩ := hl
  simp only [JavaCodeGenerator.resultAccessorBlocks, List.mem_filterMap] at hblk
  obtain ⟨⟨i, rt⟩, _, heq⟩ := hblk
  split at heq
  · exact absurd heq (by simp)
  · rw [Option.some_inj] at heq
    rw [← heq] at hlblk
    exact resultAccessorBlock_no_header _ _ _ l hlblk

theorem isWrapperHeader_append_of (x t : Str) (hx : isWrapperHeader x = true) :
    isWrapperHeader (x ++ t) = true := by
  unfold isWrapperHeader at *
  rw [List.isPrefixOf_iff_prefix] at hx ⊢
  exact hx.trans (List.prefix_append x t)

theorem generateResultClassLines_countP (g : GoFunction) (opts : JavaGenerationOptions) :
    (JavaCodeGenerator.generateResultClassLines g opts).countP isWrapperHeader = 1 := by
  show List.countP isWrapperHeader
    ((("public static class ".data) ++ JavaCodeGenerator.generateResultClassName g opts ++
        (" \x7b".data)) ::
      (JavaCodeGenerator.resultFieldLines g ++ [[]] ++
        (JavaCodeGenerator.resultAccessorBlocks g).flatten ++ [("\x7d".data)])) = 1
  rw [List.countP_cons]
  have hhead : isWrapperHeader (("public static class ".data) ++
      JavaCodeGenerator.generateResultClassName g opts ++ (" \x7b".data)) = true := by
    rw [List.append_assoc]
    exact isWrapperHeader_append _
  rw [hhead]
  have h1 : (JavaCodeGenerator.resultFieldLines g).countP isWrapperHeader = 0 :=
    List.countP_eq_zero.mpr (by
      intro a ha
      simp [resultFieldLines_no_header g a ha])
  have h2 : ((JavaCodeGenerator.resultAccessorBlocks g).flatten).countP isWrapperHeader = 0 :=
    List.countP_eq_zero.mpr (by
      intro a ha
      simp [resultAccessorBlocksFlatten_no_header g a ha])
  rw [List.countP_append, List.countP_append, List.countP_append, h1, h2]
  simp [List.countP_cons, isWrapperHeader_nil]
  decide

theorem generateResultClass_header (g : GoFunction) (opts : JavaGenerationOptions)
    (h : 1 < g.returnTypes.length) :
    isWrapperHeader (JavaCodeGenerator.generateResultClass g opts) = true := by
  unfold JavaCodeGenerator.generateResultClass
  rw [if_neg (by omega)]
  show isWrapperHeader (jsJoin ("\n".data)
    ((("public static class ".data) ++ JavaCodeGenerator.generateResultClassName g opts ++
        (" \x7b".data)) ::
      (JavaCodeGenerator.resultFieldLines g ++ [[]] ++
        (JavaCodeGenerator.resultAccessorBlocks g).flatten ++ [("\x7d".data)]))) = true
  obtain ⟨t, ht⟩ := jsJoin_cons_eq_append ("\n".data)
    (("public static class ".data) ++ JavaCodeGenerator.generateResultClassName g opts ++
      (" \x7b".data))
    (JavaCodeGenerator.resultFieldLines g ++ [[]] ++
      (JavaCodeGenerator.resultAccessorBlocks g).flatten ++ [("\x7d".data)])
  rw [ht]
  simp only [List.append_assoc]
  exact isWrapperHeader_append _

theorem generateResultClass_ne_nil (g : GoFunction) (opts : JavaGenerationOptions)
    (h : 1 < g.returnTypes.length) :
    JavaCodeGenerator.generateResultClass g opts ≠ [] := by
  unfold JavaCodeGenerator.generateResultClass
  rw [if_neg (by omega)]
  show jsJoin ("\n".data)
    ((("public static class ".data) ++ JavaCodeGenerator.generateResultClassName g opts ++
        (" \x7b".data)) ::
      (JavaCodeGenerator.resultFieldLines g ++ [[]] ++
        (JavaCodeGenerator.resultAccessorBlocks g).flatten ++ [("\x7d".data)])) ≠ []
  apply jsJoin_cons_ne_nil
  simp

theorem generateJavaDoc_shape (g : GoFunction) :
    ∃ t, JavaCodeGenerator.generateJavaDoc g = ("    /**".data) ++ t := by
  unfold JavaCodeGenerator.generateJavaDoc JavaCodeGenerator.generateJavaDocLines
  exact jsJoin_cons_eq_append _ _ _

theorem generateJavaMethod_no_header (g : GoFunction) (opts : JavaGenerationOptions)
    (h : opts.addComments = true) :
    isWrapperHeader (JavaCodeGenerator.generateJavaMethod g opts) = false := by
  unfold JavaCodeGenerator.generateJavaMethod JavaCodeGenerator.generateJavaMethodLines
  rw [h]
  simp only [if_true]
  obtain ⟨t1, h1⟩ := jsJoin_cons_eq_append ("\n".data) (JavaCodeGenerator.generateJavaDoc g)
    ([JavaCodeGenerator.generateMethodSignature g opts,
      ("    // TODO: Implement method logic".data),
      JavaCodeGenerator.generateMethodBody g opts])
  show isWrapperHeader (jsJoin ("\n".data) (JavaCodeGenerator.generateJavaDoc g ::
    [JavaCodeGenerator.generateMethodSignature g opts,
     ("    // TODO: Implement method logic".data),
     JavaCodeGenerator.generateMethodBody g opts])) = false
  rw [h1]
  obtain ⟨t2, h2⟩ := generateJavaDoc_shape g
  rw [h2]
  exact isWrapperHeader_space _

theorem mem_ite_list {c : Prop} [Decidable c] {l : Str} {xs : List Str}
    (h : l ∈ (if c then xs else [])) : l ∈ xs := by
  by_cases hc : c
  · simpa [hc] using h
  · simp [hc] at h

theorem learningHintsLines_no_header (g : GoFunction) :
    ∀ l ∈ JavaCodeGenerator.learningHintsLines g, isWrapperHeader l = false := by
  intro l hl
  simp only [JavaCodeGenerator.learningHintsLines, List.mem_append, List.mem_cons,
    List.not_mem_nil, or_false] at hl
  rcases hl with ((((((hab | h) | h) | h) | h) | h) | h) | h
  · rcases hab with h | h
    · rw [h]; exact isWrapperHeader_slash _
    · rw [h]; exact isWrapperHeader_space _
  · rw [List.mem_singleton.mp (mem_ite_list h)]; exact isWrapperHeader_space _
  · rw [List.mem_singleton.mp (mem_ite_list h)]; exact isWrapperHeader_space _
  · rw [List.mem_singleton.mp (mem_ite_list h)]; exact isWrapperHeader_space _
  · rw [List.mem_singleton.mp (mem_ite_list h)]; exact isWrapperHeader_space _
  · rw [List.mem_singleton.mp (mem_ite_list h)]; exact isWrapperHeader_space _
  · rw [List.mem_singleton.mp (mem_ite_list h)]; exact isWrapperHeader_space _
  · rw [h]; exact isWrapperHeader_space _

theorem generateFullJavaClassLines_countP (g : GoFunction) (className : Str)
    (fopts : Option JavaGenerationOptions) :
    (JavaCodeGenerator.generateFullJavaClassLines g className fopts).countP isWrapperHeader =
      if 1 < g.returnTypes.length then 1 else 0 := by
  have hA : List.countP isWrapperHeader [("import java.util.*;".data), ([] : Str)] = 0 := by
    decide
  have hB : List.countP isWrapperHeader
      (if ((fopts.bind (fun o => o.addLearningHints)).getD false) then
        JavaCodeGenerator.learningHintsLines g else []) = 0 := by
    split
    · exact List.countP_eq_zero.mpr (by
        intro a ha
        simp [learningHintsLines_no_header g a ha])
    · rfl
  have hC : List.countP isWrapperHeader
      [("public class ".data) ++ className ++ (" \x7b".data), ([] : Str)] = 0 := by
    rw [List.countP_cons, List.countP_cons]
    have hpc : isWrapperHeader (("public class ".data) ++ className ++ (" \x7b".data)) = false := by
      rw [List.append_assoc]
      exact isWrapperHeader_public_class _
    rw [hpc]
    simp [List.countP_nil, isWrapperHeader_nil]
  have hD : List.countP isWrapperHeader
      [JavaCodeGenerator.generateJavaMethod g
        (JavaCodeGenerator.fullClassMethodOptions className fopts), ([] : Str)] = 0 := by
    rw [List.countP_cons, List.countP_cons]
    rw [generateJavaMethod_no_header g _ rfl]
    simp [List.countP_nil, isWrapperHeader_nil]
  have hF : List.countP isWrapperHeader [("\x7d".data)] = 0 := by decide
  simp only [JavaCodeGenerator.generateFullJavaClassLines]
  rw [List.countP_append, List.countP_append, List.countP_append, List.countP_append,
    List.countP_append, hA, hB, hC, hD, hF]
  by_cases h : 1 < g.returnTypes.length
  · have hne := generateResultClass_ne_nil g
      (JavaCodeGenerator.fullClassMethodOptions className fopts) h
    rw [if_pos hne, if_pos h, List.countP_cons,
      generateResultClass_header g _ h]
    simp
  · have heq : JavaCodeGenerator.generateResultClass g
        (JavaCodeGenerator.fullClassMethodOptions className fopts) = [] := by
      unfold JavaCodeGenerator.generateResultClass
      rw [if_pos (by omega)]
    rw [if_neg (by simpa using heq), if_neg h]
    simp

theorem resultFieldLines_length (g : GoFunction) :
    (JavaCodeGenerator.resultFieldLines g).length =
      (g.returnTypes.filter (fun t => t.name ≠ ("error".data))).length := by
  unfold JavaCodeGenerator.resultFieldLines
  rw [show g.returnTypes.enum = g.returnTypes.enumFrom 0 from rfl]
  rw [length_filterMap_enumFrom (fun rt => rt.name = ("error".data))
    (fun p => ("    private ".data) ++ GoFunctionParser.convertGoTypeToJava p.2 false ++
      (" value".data) ++ natStr (p.1 + 1) ++ (";".data)) 0]

theorem resultAccessorBlocks_length (g : GoFunction) :
    (JavaCodeGenerator.resultAccessorBlocks g).length =
      (g.returnTypes.filter (fun t => t.name ≠ ("error".data))).length := by
  unfold JavaCodeGenerator.resultAccessorBlocks
  rw [show g.returnTypes.enum = g.returnTypes.enumFrom 0 from rfl]
  rw [length_filterMap_enumFrom (fun rt => rt.name = ("error".data))
    (fun p => JavaCodeGenerator.resultAccessorBlock g.returnTypes.length p.1 p.2) 0]

/-- C1: the claim states that a function with one non-error return type plus
an `error` return yields no wrapper type.  For
`func add(a int, b int) (int, error)` (one non-error return),
`generateResultClass` tests `returnTypes.length <= 1` on the full list
(length 2, `error` included) and emits a wrapper class, refuting the
claim. -/
theorem C1_counterexample :
    (GoFunctionParser.parseFunction ("func add(a int, b int) (int, error)".data)).map
        (fun f => ((JavaCodeGenerator.generateResultClass f defaultJavaOptions).isEmpty,
                   (JavaCodeGenerator.resultFieldLines f).length,
                   (JavaCodeGenerator.generateFullJavaClassLines f ("GoConverter".data)
                       none).countP isWrapperHeader)) =
      some (false, 1, 1) := by decide

/-- C1 (amended): the generator emits exactly one wrapper type — with
exactly `k` fields and `k` getter/setter blocks, where `k` is the number of
non-error return types — whenever the **total** number of declared return
types (`error` entries included) exceeds one, and no wrapper type when that
total is at most one.  In particular one value plus `error` (total 2,
`k = 1`) does produce a wrapper with a single field. -/
theorem C1_result_wrapper_law (g : GoFunction) (opts : JavaGenerationOptions)
    (className : Str) (fopts : Option JavaGenerationOptions) :
    (g.returnTypes.length ≤ 1 →
      JavaCodeGenerator.generateResultClass g opts = [] ∧
      (JavaCodeGenerator.generateFullJavaClassLines g className fopts).countP
        isWrapperHeader = 0) ∧
    (1 < g.returnTypes.length →
      JavaCodeGenerator.generateResultClass g opts ≠ [] ∧
      (JavaCodeGenerator.generateResultClassLines g opts).countP isWrapperHeader = 1 ∧
      (JavaCodeGenerator.generateFullJavaClassLines g className fopts).countP
        isWrapperHeader = 1 ∧
      (JavaCodeGenerator.resultFieldLines g).length =
        (g.returnTypes.filter (fun t => t.name ≠ ("error".data))).length ∧
      (JavaCodeGenerator.resultAccessorBlocks g).length =
        (g.returnTypes.filter (fun t => t.name ≠ ("error".data))).length) := by
  constructor
  · intro hle
    constructor
    · unfold JavaCodeGenerator.generateResultClass
      rw [if_pos hle]
    · rw [generateFullJavaClassLines_countP, if_neg (by omega)]
  · intro hgt
    exact ⟨generateResultClass_ne_nil g opts hgt,
           generateResultClassLines_countP g opts,
           by rw [generateFullJavaClassLines_countP, if_pos hgt],
           resultFieldLines_length g,
           resultAccessorBlocks_length g⟩

/-- Witness for C1: the amended law applied to the concrete
`add(a int, b int) (int, error)` function (total return count 2, one
non-error return). -/
theorem C1_witness :
    1 < addGoFunction.returnTypes.length ∧
    JavaCodeGenerator.generateResultClass addGoFunction defaultJavaOptions ≠ [] ∧
    (JavaCodeGenerator.resultFieldLines addGoFunction).length =
      (addGoFunction.returnTypes.filter (fun t => t.name ≠ ("error".data))).length :=
  ⟨by decide,
   ((C1_result_wrapper_law addGoFunction defaultJavaOptions ("GoConverter".data) none).2
      (by decide)).1,
   ((C1_result_wrapper_law addGoFunction defaultJavaOptions ("GoConverter".data) none).2
      (by decide)).2.2.2.1⟩

/-! ### C3 — type-prefix parsing -/

theorem jsTrim_eq_right_of_ltrim (s : Str) (h : s.dropWhile isWS = s) :
    jsTrim s = jsTrimRight s := by
  unfold jsTrim jsTrimRight
  rw [h]

theorem jsTrimRight_last_not_ws {T : Str} (hT : jsTrimRight T = T) (hne : T ≠ []) :
    ∃ c r, T.reverse = c :: r ∧ isWS c = false := by
  cases hrev : T.reverse with
  | nil => exact absurd (List.reverse_eq_nil_iff.mp hrev) hne
  | cons c r =>
    refine ⟨c, r, rfl, ?_⟩
    by_contra hws
    rw [Bool.not_eq_false] at hws
    have hdrop : T.reverse.dropWhile isWS = T.reverse := by
      have := congrArg List.reverse hT
      rwa [jsTrimRight, List.reverse_reverse] at this
    rw [hrev, List.dropWhile_cons, if_pos hws] at hdrop
    have hlen : (r.dropWhile isWS).length ≤ r.length := (List.dropWhile_sublist _).length_le
    have hlen2 := congrArg List.length hdrop
    simp [List.length_cons] at hlen2
    omega

theorem jsTrimRight_append (A T : Str) (hT : jsTrimRight T = T) (hne : T ≠ []) :
    jsTrimRight (A ++ T) = A ++ T := by
  obtain ⟨c, r, hrev, hc⟩ := jsTrimRight_last_not_ws hT hne
  unfold jsTrimRight
  rw [List.reverse_append, hrev, List.cons_append, List.dropWhile_cons,
    if_neg (by simp [hc]), List.reverse_cons, List.reverse_append,
    List.reverse_reverse, List.append_assoc]
  congr 1
  rw [← List.reverse_cons, ← hrev, List.reverse_reverse]

/-- C3 counterexample: the regex parser `parseType` strips only the FIRST
matching marker, so `*map[string]int` comes out as a plain pointer type whose
base name is `map[string]int` — the map flag is unset and no key/value parse
happens — and `...[]int` keeps base name `[]int` rather than `int`. -/
theorem C3_counterexample :
    (GoFunctionParser.parseType ("*map[string]int".data)).isMap = false
    ∧ ((GoFunctionParser.parseType ("*map[string]int".data)).keyType).isNone = true
    ∧ (GoFunctionParser.parseType ("*map[string]int".data)).name = ("map[string]int".data)
    ∧ (GoFunctionParser.parseType ("...[]int".data)).name = ("[]int".data) := by
  refine ⟨rfl, rfl, rfl, rfl⟩

theorem parseTypeFuel_variadic_arm (fuel : Nat) (s : Str) (htrim : jsTrim s = s)
    (hv : ("...".data).isPrefixOf s = true)
    (hp : ("*".data).isPrefixOf s = false)
    (hsl : ("[]".data).isPrefixOf s = false) :
    GoFunctionParser.parseTypeFuel fuel s
      = GoType.plain (s.drop 3) false true false true none none := by
  cases fuel with
  | zero =>
    simp only [GoFunctionParser.parseTypeFuel, htrim, hv, hp, hsl, Bool.false_or]
    rfl
  | succ n =>
    simp only [GoFunctionParser.parseTypeFuel, htrim, hv, hp, hsl, Bool.false_or]
    rfl

theorem parseTypeFuel_pointer_arm (fuel : Nat) (s : Str) (htrim : jsTrim s = s)
    (hv : ("...".data).isPrefixOf s = false)
    (hp : ("*".data).isPrefixOf s = true)
    (hsl : ("[]".data).isPrefixOf s = false) :
    GoFunctionParser.parseTypeFuel fuel s
      = GoType.plain (s.drop 1) true false false false none none := by
  cases fuel with
  | zero =>
    simp only [GoFunctionParser.parseTypeFuel, htrim, hv, hp, hsl, Bool.false_or, Bool.or_false]
    rfl
  | succ n =>
    simp only [GoFunctionParser.parseTypeFuel, htrim, hv, hp, hsl, Bool.false_or, Bool.or_false]
    rfl

/-- C3 (amended): `parseType` tests the variadic, pointer, slice and map
markers in a fixed order but strips only the first matching marker, leaving
later markers inside the base name; the map decomposition runs only when the
map marker comes first. Hence `...[]T` (with `T` free of trailing whitespace)
parses to a variadic whose slice flag is set but whose base name is `[]T`,
and `*map[K]V` parses to a plain pointer whose base name is `map[K]V`, with
the map flag unset and no key/value decomposition. -/
theorem C3_first_marker_only (T K V : Str)
    (hT : jsTrimRight T = T) (hV : jsTrimRight V = V) :
    GoFunctionParser.parseType (("...[]".data) ++ T)
      = GoType.plain (("[]".data) ++ T) false true false true none none
    ∧ GoFunctionParser.parseType (("*map[".data) ++ K ++ ("]".data) ++ V)
      = GoType.plain (("map[".data) ++ K ++ ("]".data) ++ V) true false false false none none := by
  constructor
  · have h1 : (("...[]".data) ++ T).dropWhile isWS = ("...[]".data) ++ T := by
      show (('.' :: (("..[]".data) ++ T)).dropWhile isWS) = ("...[]".data) ++ T
      rw [List.dropWhile_cons, if_neg (by decide)]
      rfl
    have h2 : jsTrimRight (("...[]".data) ++ T) = ("...[]".data) ++ T := by
      by_cases hne : T = []
      · subst hne; rw [List.append_nil]; decide
      · exact jsTrimRight_append _ T hT hne
    have htrim : jsTrim (("...[]".data) ++ T) = ("...[]".data) ++ T :=
      (jsTrim_eq_right_of_ltrim _ h1).trans h2
    have hv : ("...".data).isPrefixOf (("...[]".data) ++ T) = true := by
      have e : ("...[]".data) ++ T = ("...".data) ++ (("[]".data) ++ T) := rfl
      rw [e]; exact isPrefixOf_append_self _ _
    have hp : ("*".data).isPrefixOf (("...[]".data) ++ T) = false := by
      have e : ("...[]".data) ++ T = '.' :: (("..[]".data) ++ T) := rfl
      rw [e]; exact isPrefixOf_head_ne _ _ (by decide)
    have hsl : ("[]".data).isPrefixOf (("...[]".data) ++ T) = false := by
      have e : ("...[]".data) ++ T = '.' :: (("..[]".data) ++ T) := rfl
      rw [e]; exact isPrefixOf_head_ne _ _ (by decide)
    have hd : (("...[]".data) ++ T).drop 3 = ("[]".data) ++ T := rfl
    rw [GoFunctionParser.parseType, parseTypeFuel_variadic_arm _ _ htrim hv hp hsl, hd]
  · have h1 : ((("*map[".data) ++ K ++ ("]".data) ++ V).dropWhile isWS)
        = ("*map[".data) ++ K ++ ("]".data) ++ V := by
      show (('*' :: ((("map[".data) ++ K ++ ("]".data)) ++ V)).dropWhile isWS)
        = ("*map[".data) ++ K ++ ("]".data) ++ V
      rw [List.dropWhile_cons, if_neg (by decide)]
      rfl
    have h2 : jsTrimRight (("*map[".data) ++ K ++ ("]".data) ++ V)
        = ("*map[".data) ++ K ++ ("]".data) ++ V := by
      by_cases hne : V = []
      · subst hne; rw [List.append_nil]
        exact jsTrimRight_append _ ("]".data) (by decide) (by decide)
      · exact jsTrimRight_append _ V hV hne
    have htrim : jsTrim (("*map[".data) ++ K ++ ("]".data) ++ V)
        = ("*map[".data) ++ K ++ ("]".data) ++ V :=
      (jsTrim_eq_right_of_ltrim _ h1).trans h2
    have hv : ("...".data).isPrefixOf (("*map[".data) ++ K ++ ("]".data) ++ V) = false := by
      have e : ("*map[".data) ++ K ++ ("]".data) ++ V
        = '*' :: ((("map[".data) ++ K ++ ("]".data)) ++ V) := rfl
      rw [e]; exact isPrefixOf_head_ne _ _ (by decide)
    have hp : ("*".data).isPrefixOf (("*map[".data) ++ K ++ ("]".data) ++ V) = true := by
      have e : ("*map[".data) ++ K ++ ("]".data) ++ V
        = ("*".data) ++ ((("map[".data) ++ K ++ ("]".data)) ++ V) := rfl
      rw [e]; exact isPrefixOf_append_self _ _
    have hsl : ("[]".data).isPrefixOf (("*map[".data) ++ K ++ ("]".data) ++ V) = false := by
      have e : ("*map[".data) ++ K ++ ("]".data) ++ V
        = '*' :: ((("map[".data) ++ K ++ ("]".data)) ++ V) := rfl
      rw [e]; exact isPrefixOf_head_ne _ _ (by decide)
    have hd : (("*map[".data) ++ K ++ ("]".data) ++ V).drop 1
        = ("map[".data) ++ K ++ ("]".data) ++ V := rfl
    rw [GoFunctionParser.parseType, parseTypeFuel_pointer_arm _ _ htrim hv hp hsl, hd]

/-- C3 witness: the amended law applied at T = int, K = string, V = bool. -/
theorem C3_witness :
    (jsTrimRight ("int".data) = ("int".data) ∧ jsTrimRight ("bool".data) = ("bool".data))
    ∧ (GoFunctionParser.parseType (("...[]".data) ++ ("int".data))
        = GoType.plain (("[]".data) ++ ("int".data)) false true false true none none
      ∧ GoFunctionParser.parseType (("*map[".data) ++ ("string".data) ++ ("]".data) ++ ("bool".data))
        = GoType.plain (("map[".data) ++ ("string".data) ++ ("]".data) ++ ("bool".data))
            true false false false none none) :=
  ⟨⟨by decide, by decide⟩,
    C3_first_marker_only ("int".data) ("string".data) ("bool".data) (by decide) (by decide)⟩

/-! ### C4 — boxing invariant for container arguments -/

/-- C4: the boxing invariant holds for scalar element/key/value names
(`[]int` renders as `List<Integer>`, `map[string]int` as
`Map<String, Integer>`), but it FAILS for nested containers: `[][]int`
parses to a slice-flagged TypeRef whose mapped string is `List<[]int>`,
which carries the unboxed primitive token `int` inside the container's
angle-bracket arguments — boxing looks the whole base name up in
`BOXED_TYPE_MAP`, which only knows scalar primitives. -/
theorem C4_boxing_violation :
    GoFunctionParser.convertGoTypeToJava (GoFunctionParser.parseType ("[]int".data)) false
      = ("List<Integer>".data)
    ∧ GoFunctionParser.convertGoTypeToJava
        (GoFunctionParser.parseType ("map[string]int".data)) false
      = ("Map<String, Integer>".data)
    ∧ (GoFunctionParser.parseType ("[][]int".data)).isSlice = true
    ∧ GoFunctionParser.convertGoTypeToJava (GoFunctionParser.parseType ("[][]int".data)) false
      = ("List<[]int>".data)
    ∧ ("int".data) ∈ javaPrimitiveTokens
    ∧ ("int".data) ∈ wordTokens (angleInner
        (GoFunctionParser.convertGoTypeToJava
          (GoFunctionParser.parseType ("[][]int".data)) false)) := by
  decide

/-! ### C5 — variadic parameter rendering -/

/-- C5 counterexample: the interface-signature renderer
`generateParameterListWithContext` has no variadic case, so the final
variadic `numbers ...int` parameter of an interface method is rendered as
the boxed container `List<Integer> numbers`, and the emitted interface
method line is `int sum(List<Integer> numbers);` — not the varargs form
`int... numbers` the claim requires for every generated method. -/
theorem C5_counterexample :
    JavaFileGenerator.generateParameterListWithContext [C5Param] none
      = ("List<Integer> numbers".data)
    ∧ (("    int sum(List<Integer> numbers);".data) ∈
        JavaFileGenerator.generateJavaInterfaceLines C5Iface C5FileOptions none false)
    ∧ JavaCodeGenerator.generateParameterList C5Func = ("int... numbers".data) := by
  refine ⟨by decide, by decide, by decide⟩

/-- C5 (amended): a trailing variadic parameter is rendered as a varargs
parameter of the unboxed element type ONLY by `JavaCodeGenerator.
generateParameterList`, which serves package-level functions and struct
methods; interface method signatures go through
`generateParameterListWithContext`, which has no variadic case and renders
the slice-flagged variadic as the boxed container `List<...>`. -/
theorem C5_varargs_law (ps : List GoParameter) (p : GoParameter) (g : GoFunction)
    (hg : g.parameters = ps ++ [p]) (hv : p.type.isVariadic = true)
    (hs : p.type.isSlice = true) (hm : p.type.isMap = false) :
    (JavaCodeGenerator.parameterItems g).getLast?
      = some (GoFunctionParser.convertGoTypeToJava p.type.clearSliceVariadic false
          ++ ("... ".data) ++ JavaCodeGenerator.toJavaParameterName p.name)
    ∧ ("List<".data).isPrefixOf
        (JavaFileGenerator.generateParameterListWithContext [p] none) = true := by
  constructor
  · unfold JavaCodeGenerator.parameterItems
    rw [hg]
    rw [show (ps ++ [p]).enum = ps.enum ++ [(ps.length, p)] from by simp [List.enum_append]]
    simp only [List.map_append, List.map_cons, List.map_nil]
    rw [List.getLast?_append_cons]
    simp [List.length_append, hv]
  · show ("List<".data).isPrefixOf
      (jsJoin (", ".data) [JavaFileGenerator.convertTypeToJavaWithContext p.type none
        ++ (" ".data) ++ GoFunctionParser.toJavaMethodName p.name]) = true
    show ("List<".data).isPrefixOf
      (JavaFileGenerator.convertTypeToJavaWithContext p.type none
        ++ (" ".data) ++ GoFunctionParser.toJavaMethodName p.name) = true
    unfold JavaFileGenerator.convertTypeToJavaWithContext
    rcases ht : p.type with ⟨n, ip, isl, im, iv, k, v, pos, pp, st, it⟩
    rw [ht] at hs hm
    simp only [GoType.isSlice] at hs
    simp only [GoType.isMap] at hm
    subst hs; subst hm
    cases k <;> cases v <;>
      simp [GoFunctionParser.convertGoTypeToJava, GoFunctionParser.convertBase,
        List.append_assoc, List.isPrefixOf_iff_prefix]

/-- C5 witness: the amended law applied at the Scenario 2 function. -/
theorem C5_witness :
    (C5Func.parameters = [] ++ [C5Param]
      ∧ C5Param.type.isVariadic = true
      ∧ C5Param.type.isSlice = true
      ∧ C5Param.type.isMap = false)
    ∧ ((JavaCodeGenerator.parameterItems C5Func).getLast?
        = some (GoFunctionParser.convertGoTypeToJava C5Param.type.clearSliceVariadic false
            ++ ("... ".data) ++ JavaCodeGenerator.toJavaParameterName C5Param.name)
      ∧ ("List<".data).isPrefixOf
          (JavaFileGenerator.generateParameterListWithContext [C5Param] none) = true) :=
  ⟨⟨rfl, by decide, by decide, by decide⟩,
    C5_varargs_law [] C5Param C5Func rfl (by decide) (by decide) (by decide)⟩

/-! ### C9 — the parsers never throw -/

theorem exceptBind_ok {α β : Type} (a : α) (f : α → Except Unit β) :
    (Except.ok a >>= f) = f a := rfl

theorem lineAt_ok (lines : List Str) (i : Nat) (hi : i < lines.length) :
    lineAt lines i = Except.ok (lines.get ⟨i, hi⟩) := by
  unfold lineAt
  rw [List.get?_eq_get hi]

theorem parseImports_ok (lines : List Str) (i : Nat) (hi : i < lines.length) :
    ∃ r, GoFileParser.parseImports lines i = Except.ok r := by
  unfold GoFileParser.parseImports
  rw [lineAt_ok lines i hi]
  show ∃ r, (Except.ok (lines.get ⟨i, hi⟩) >>= _) = Except.ok r
  simp only [exceptBind_ok]
  split
  · split <;> exact ⟨_, rfl⟩
  · split <;> exact ⟨_, rfl⟩

theorem parseStruct_ok (name : Str) (lines : List Str) (i : Nat) (hi : i < lines.length) :
    ∃ r, GoFileParser.parseStruct name lines i = Except.ok r := by
  unfold GoFileParser.parseStruct
  rw [lineAt_ok lines i hi]
  exact ⟨_, rfl⟩

theorem parseInterface_ok (name : Str) (lines : List Str) (i : Nat) (hi : i < lines.length) :
    ∃ r, GoFileParser.parseInterface name lines i = Except.ok r := by
  unfold GoFileParser.parseInterface
  rw [lineAt_ok lines i hi]
  exact ⟨_, rfl⟩

theorem parseTypeDeclaration_ok (lines : List Str) (i : Nat) (hi : i < lines.length) :
    ∃ r, GoFileParser.parseTypeDeclaration lines i = Except.ok r := by
  unfold GoFileParser.parseTypeDeclaration
  rw [lineAt_ok lines i hi]
  show ∃ r, (Except.ok (lines.get ⟨i, hi⟩) >>= _) = Except.ok r
  simp only [exceptBind_ok]
  split
  · obtain ⟨⟨st, nl⟩, hps⟩ := parseStruct_ok _ lines i hi
    rw [hps]
    exact ⟨_, rfl⟩
  · split
    · obtain ⟨⟨ifc, nl⟩, hpi⟩ := parseInterface_ok _ lines i hi
      rw [hpi]
      exact ⟨_, rfl⟩
    · exact ⟨_, rfl⟩

theorem parseFileLoop_ok (lines : List Str) : ∀ fuel i goFile,
    ∃ gf, GoFileParser.parseFileLoop lines fuel i goFile = Except.ok gf := by
  intro fuel
  induction fuel with
  | zero => exact fun i goFile => ⟨goFile, rfl⟩
  | succ n ih =>
    intro i goFile
    by_cases hi : i < lines.length
    · simp only [GoFileParser.parseFileLoop]
      rw [if_pos hi]
      split
      · exact ih _ _
      · split
        · exact ih _ _
        · split
          · obtain ⟨⟨im, nl⟩, hp⟩ := parseImports_ok lines i hi
            rw [hp, exceptBind_ok]
            exact ih _ _
          · split
            · obtain ⟨⟨st, ifc, nl⟩, hp⟩ := parseTypeDeclaration_ok lines i hi
              rw [hp, exceptBind_ok]
              cases st <;> cases ifc <;> exact ih _ _
            · split
              · rcases GoFileParser.parseFunction lines i with ⟨func, nl⟩
                cases func <;> exact ih _ _
              · split
                · cases GoFileParser.parseVariable (jsTrim (lines.getD i [])) false <;>
                    exact ih _ _
                · split
                  · cases GoFileParser.parseVariable (jsTrim (lines.getD i [])) true <;>
                      exact ih _ _
                  · exact ih _ _
    · simp only [GoFileParser.parseFileLoop]
      rw [if_neg hi]
      exact ⟨goFile, rfl⟩

/-- C9: the whole-file parser returns a SourceUnit for EVERY input (the
`Except.error` outcome, which models a thrown JS exception, is unreachable),
and on a `func` line the loop always proceeds to the line after the
declaration with the accumulator updated only when the declaration parse
returned a Function — an unparsable declaration (parse result `none`) is
simply omitted and parsing continues. -/
theorem C9_parser_totality :
    (∀ content : Str, ∃ gf, GoFileParser.parseFile content = Except.ok gf)
    ∧ (∀ (lines : List Str) (fuel i : Nat) (goFile : GoFile) (rest : Str),
        i < lines.length →
        jsTrim (lines.getD i []) = ("func ".data) ++ rest →
        GoFileParser.parseFileLoop lines (fuel + 1) i goFile
          = GoFileParser.parseFileLoop lines fuel (GoFileParser.parseFunction lines i).2
              (match (GoFileParser.parseFunction lines i).1 with
               | some f => GoFileParser.dispatchParsedFunc goFile f
               | none => goFile)) := by
  constructor
  · exact fun content => parseFileLoop_ok _ _ _ _
  · intro lines fuel i goFile rest hi ht
    simp only [GoFileParser.parseFileLoop]
    rw [if_pos hi, ht]
    have hne : ("func ".data) ++ rest ≠ [] := by
      show 'f' :: (("unc ".data) ++ rest) ≠ []
      simp
    have hcm : ("//".data).isPrefixOf (("func ".data) ++ rest) = false := by
      have e : ("func ".data) ++ rest = 'f' :: (("unc ".data) ++ rest) := rfl
      rw [e]; exact isPrefixOf_head_ne _ _ (by decide)
    have hpk : ("package ".data).isPrefixOf (("func ".data) ++ rest) = false := by
      have e : ("func ".data) ++ rest = 'f' :: (("unc ".data) ++ rest) := rfl
      rw [e]; exact isPrefixOf_head_ne _ _ (by decide)
    have him : ("import ".data).isPrefixOf (("func ".data) ++ rest) = false := by
      have e : ("func ".data) ++ rest = 'f' :: (("unc ".data) ++ rest) := rfl
      rw [e]; exact isPrefixOf_head_ne _ _ (by decide)
    have hty : ("type ".data).isPrefixOf (("func ".data) ++ rest) = false := by
      have e : ("func ".data) ++ rest = 'f' :: (("unc ".data) ++ rest) := rfl
      rw [e]; exact isPrefixOf_head_ne _ _ (by decide)
    have hfn : ("func ".data).isPrefixOf (("func ".data) ++ rest) = true :=
      isPrefixOf_append_self _ _
    rw [if_neg (by simp [hne, hcm]), if_neg (by simp [hpk]), if_neg (by simp [him]),
      if_neg (by simp [hty]), if_pos hfn]

/-- C9 witness: totality at a malformed input, and the continuation law at
an unparsable `func` declaration line. -/
theorem C9_witness :
    (∃ gf, GoFileParser.parseFile ("package main\nfunc broken((\n".data) = Except.ok gf)
    ∧ (0 < C9Lines.length
      ∧ jsTrim (C9Lines.getD 0 []) = ("func ".data) ++ ("broken((".data)
      ∧ GoFileParser.parseFileLoop C9Lines (0 + 1) 0 C9File
          = GoFileParser.parseFileLoop C9Lines 0 (GoFileParser.parseFunction C9Lines 0).2
              (match (GoFileParser.parseFunction C9Lines 0).1 with
               | some f => GoFileParser.dispatchParsedFunc C9File f
               | none => C9File)) :=
  ⟨C9_parser_totality.1 _,
    by decide, by decide,
    C9_parser_totality.2 C9Lines 0 0 C9File ("broken((".data) (by decide) (by decide)⟩

/-! ### C10 — declaration-order dependence of method attachment -/

theorem pushMethodToStruct_eq_none (r : Str) (f : GoFunction) :
    ∀ structs : List GoStruct,
      structs.all (fun s => decide (s.name ≠ r)) = true →
      GoFileParser.pushMethodToStruct r f structs = none := by
  intro structs h
  induction structs with
  | nil => rfl
  | cons s rest ih =>
    rw [List.all_cons, Bool.and_eq_true, decide_eq_true_eq] at h
    obtain ⟨h1, h2⟩ := h
    unfold GoFileParser.pushMethodToStruct
    rw [if_neg h1, ih h2]
    rfl

/-- C10: the scanner's dispatch searches only structs already parsed, so a
method whose receiver matches NO struct parsed so far is appended to the
free-function list (first conjunct, universal); on the whole file this makes
attachment order-dependent: method-before-struct leaves `Inc` a free function
with `Counter.methods` empty, struct-before-method attaches it (second and
third conjuncts).  The grammar-tree parser attaches methods only after the
whole file is walked, so the same method is attached to `Counter` regardless
of declaration order (fourth conjunct). -/
theorem C10_order_dependence :
    (∀ (goFile : GoFile) (f : GoFunction) (recv : GoParameter),
        f.receiver = some recv → f.isMethod = true →
        goFile.structs.all
          (fun s => decide (s.name ≠ jsReplaceFirst '*' recv.type.name)) = true →
        GoFileParser.dispatchParsedFunc goFile f
          = { goFile with functions := goFile.functions ++ [f] })
    ∧ ((GoFileParser.parseFile C10MethodFirst).map (fun gf =>
          (gf.functions.map GoFunction.name,
           gf.structs.map (fun s => (s.name, s.methods.map GoFunction.name))))
        = Except.ok ([("Inc".data)], [(("Counter".data), ([] : List Str))]))
    ∧ ((GoFileParser.parseFile C10StructFirst).map (fun gf =>
          (gf.functions.map GoFunction.name,
           gf.structs.map (fun s => (s.name, s.methods.map GoFunction.name))))
        = Except.ok ([], [(("Counter".data), [("Inc".data)])]))
    ∧ ((TreeSitterGoParser.attachMethodsToStructs [C10CounterStruct] [C10IncFunc]).1.map
          (fun s => (s.name, s.methods.map GoFunction.name))
        = [(("Counter".data), [("Inc".data)])]
      ∧ (TreeSitterGoParser.attachMethodsToStructs [C10CounterStruct] [C10IncFunc]).2 = []) := by
  refine ⟨?_, rfl, rfl, rfl, rfl⟩
  intro goFile f recv hr hm hall
  have hpush := pushMethodToStruct_eq_none (jsReplaceFirst '*' recv.type.name) f
    goFile.structs hall
  simp [GoFileParser.dispatchParsedFunc, hr, hm, hpush]

/-- C10 witness: the dispatch law applied at the parsed `Inc` method and a
unit with no structs. -/
theorem C10_witness :
    (C10IncFunc.receiver = some C10Recv
      ∧ C10IncFunc.isMethod = true
      ∧ C10EmptyFile.structs.all
          (fun s => decide (s.name ≠ jsReplaceFirst '*' C10Recv.type.name)) = true)
    ∧ GoFileParser.dispatchParsedFunc C10EmptyFile C10IncFunc
        = { C10EmptyFile with functions := C10EmptyFile.functions ++ [C10IncFunc] } :=
  ⟨⟨rfl, rfl, rfl⟩, C10_order_dependence.1 C10EmptyFile C10IncFunc C10Recv rfl rfl rfl⟩

/-! ### C7 — termination and dedup of the resolution walk -/

theorem addExternalStruct_nodup (l : List GoStruct) (s : GoStruct)
    (h : (l.map GoStruct.name).Nodup) :
    ((TypeDependencyResolver.addExternalStruct l s).map GoStruct.name).Nodup := by
  unfold TypeDependencyResolver.addExternalStruct
  split
  · exact h
  · rename_i hany
    rw [Bool.not_eq_true, List.any_eq_false] at hany
    rw [List.map_append, List.map_cons, List.map_nil]
    rw [List.nodup_append]
    refine ⟨h, List.nodup_singleton _, ?_⟩
    intro a ha hb
    rw [List.mem_singleton] at hb
    subst hb
    obtain ⟨x, hx, hxa⟩ := List.mem_map.mp ha
    have hbeq : (x.name == s.name) = true := by rw [hxa]; exact beq_self_eq_true _
    exact hany x hx hbeq

theorem addExternalInterface_nodup (l : List GoInterface) (ifc : GoInterface)
    (h : (l.map GoInterface.name).Nodup) :
    ((TypeDependencyResolver.addExternalInterface l ifc).map GoInterface.name).Nodup := by
  unfold TypeDependencyResolver.addExternalInterface
  split
  · exact h
  · rename_i hany
    rw [Bool.not_eq_true, List.any_eq_false] at hany
    rw [List.map_append, List.map_cons, List.map_nil]
    rw [List.nodup_append]
    refine ⟨h, List.nodup_singleton _, ?_⟩
    intro a ha hb
    rw [List.mem_singleton] at hb
    subst hb
    obtain ⟨x, hx, hxa⟩ := List.mem_map.mp ha
    have hbeq : (x.name == ifc.name) = true := by rw [hxa]; exact beq_self_eq_true _
    exact hany x hx hbeq

set_option maxRecDepth 8000 in
/-- One-step unfolding of `resolveTypeF` at positive fuel: definitionally
equal to the body, with the `let` bindings inlined (or replaced by sharing
lambdas) so the right-hand side is amenable to rewriting. -/
theorem resolveTypeF_succ (w : ResolverWorld) (fuel : Nat) (type : GoType)
    (documentUri : Str) (position : SourcePosition) (depth maxDepth : Nat)
    (currentUri : Str) (importMap : List (Str × Str)) (options : ResolutionOptions)
    (st : RState) :
    TypeDependencyResolver.resolveTypeF w (fuel + 1) type documentUri position depth
      maxDepth currentUri importMap options st
    = if depth > maxDepth then st
      else if TypeDependencyResolver.BUILTIN_TYPES.contains
          (TypeDependencyResolver.getBaseTypeName type) then st
      else if st.visited.contains
          (TypeDependencyResolver.makeTypeKey (TypeDependencyResolver.getBaseTypeName type)
            type.packagePath (some currentUri)) then st
      else if (!(options.resolveStdlib.getD false) &&
          (match resolveQualifiedType (TypeDependencyResolver.getBaseTypeName type)
              importMap with
           | some q => TypeDependencyResolver.STDLIB_PACKAGES.contains q.packageAlias
           | none => false)) then
        { st with
            visited := st.visited ++
                       [TypeDependencyResolver.makeTypeKey
                         (TypeDependencyResolver.getBaseTypeName type)
                         type.packagePath (some currentUri)] }
      else
        (fun (st1 : RState) (node0 : TypeNode) =>
         (fun (nodeSt : TypeNode × RState) =>
          (fun (st4 : RState) =>
            { st4 with
                nodes := st4.nodes ++ [nodeSt.1],
                typeMap := mapSet (TypeDependencyResolver.getBaseTypeName type)
                             nodeSt.1 st4.typeMap })
            (if type.isMap then
              (fun (stK : RState) =>
                match type.valueType with
                | some vt =>
                  TypeDependencyResolver.resolveTypeF w fuel vt documentUri
                    (vt.position.getD position) (depth + 1) maxDepth currentUri
                    importMap options stK
                | none => stK)
                (match type.keyType with
                 | some kt =>
                   TypeDependencyResolver.resolveTypeF w fuel kt documentUri
                     (kt.position.getD position) (depth + 1) maxDepth currentUri
                     importMap options nodeSt.2
                 | none => nodeSt.2)
             else nodeSt.2))
         (match
            (match w.resolveAtPosition documentUri position with
             | .error _ => Except.error (node0, st1)
             | .ok none => Except.ok (node0, st1)
             | .ok (some resolved) =>
               (fun (node1 : TypeNode) =>
                (fun (afterStruct : Except (TypeNode × RState) (TypeNode × RState)) =>
                 match afterStruct with
                 | Except.error e => Except.error e
                 | Except.ok (nodeA, stA) =>
                   match resolved.iface with
                   | some ifc =>
                     (fun (nodeB : TypeNode) (stB : RState) =>
                      match resolved.goFile with
                      | some gf =>
                        (match
                          (match resolved.location with
                           | some loc => w.openTextDocument loc
                           | none => Except.ok documentUri) with
                         | .error _ => Except.error (nodeB, stB)
                         | .ok nestedDoc =>
                           Except.ok (nodeB,
                             ifc.methods.foldl (fun (acc : RState) (method : GoMethodSignature) =>
                               method.returnTypes.foldl (fun (a : RState) (rt : GoType) =>
                                 match rt.position with
                                 | some rp =>
                                   TypeDependencyResolver.resolveTypeF w fuel rt
                                     nestedDoc rp (depth + 1) maxDepth
                                     ((strTruthy resolved.sourceUri).getD currentUri)
                                     (buildImportAliasMap gf) options a
                                 | none => a)
                                 (method.parameters.foldl (fun (a : RState) (param : GoParameter) =>
                                   match param.typePosition with
                                   | some tp =>
                                     TypeDependencyResolver.resolveTypeF w fuel
                                       param.type nestedDoc tp (depth + 1) maxDepth
                                       ((strTruthy resolved.sourceUri).getD currentUri)
                                       (buildImportAliasMap gf) options a
                                   | none => a) acc)) stB))
                      | none => Except.ok (nodeB, stB))
                     (nodeA.attachInterface ifc)
                     (if TypeDependencyResolver.isForeignSource resolved.sourceUri
                          currentUri then
                        { stA with
                            externalInterfaces :=
                              TypeDependencyResolver.addExternalInterface
                                stA.externalInterfaces ifc }
                      else stA)
                   | none => Except.ok (nodeA, stA))
                (match resolved.struct with
                 | some s =>
                   (fun (node2 : TypeNode) (st2 : RState) =>
                    match resolved.goFile with
                    | some gf =>
                      (match
                        (match resolved.location with
                         | some loc => w.openTextDocument loc
                         | none => Except.ok documentUri) with
                       | .error _ => Except.error (node2, st2)
                       | .ok nestedDoc =>
                         Except.ok (node2,
                           s.fields.foldl (fun (acc : RState) (field : GoField) =>
                             match field.typePosition with
                             | some tp =>
                               TypeDependencyResolver.resolveTypeF w fuel field.type
                                 nestedDoc tp (depth + 1) maxDepth
                                 ((strTruthy resolved.sourceUri).getD currentUri)
                                 (buildImportAliasMap gf) options acc
                             | none => acc) st2))
                    | none => Except.ok (node2, st2))
                   (node1.attachStruct s)
                   (if TypeDependencyResolver.isForeignSource resolved.sourceUri
                        currentUri then
                      { st1 with
                          externalStructs :=
                            TypeDependencyResolver.addExternalStruct
                              st1.externalStructs s }
                    else st1)
                 | none => Except.ok (node1, st1)))
               (node0.setResolvedInfo resolved.sourceUri resolved.importPath))
          with
          | Except.ok x => x
          | Except.error x => x))
        { st with
            visited := st.visited ++
                       [TypeDependencyResolver.makeTypeKey
                         (TypeDependencyResolver.getBaseTypeName type)
                         type.packagePath (some currentUri)] }
        (TypeNode.mk type none none none none
          ((resolveQualifiedType (TypeDependencyResolver.getBaseTypeName type)
              importMap).isSome || type.packagePath.isSome) []) := rfl

set_option maxHeartbeats 1000000 in
theorem resolveTypeF_nodup (w : ResolverWorld) : ∀ (fuel : Nat) (t : GoType) (du : Str)
    (pos : SourcePosition) (depth maxD : Nat) (cu : Str) (im : List (Str × Str))
    (opts : ResolutionOptions) (st : RState),
    nodupExternalNames st →
    nodupExternalNames
      (TypeDependencyResolver.resolveTypeF w fuel t du pos depth maxD cu im opts st) := by
  intro fuel
  induction fuel with
  | zero => intro t du pos depth maxD cu im opts st h; exact h
  | succ n ih =>
    intro t du pos depth maxD cu im opts st h
    have hstep : ∀ (t' : GoType) (du' : Str) (pos' : SourcePosition) (cu' : Str)
        (im' : List (Str × Str)) (st' : RState), nodupExternalNames st' →
        nodupExternalNames
          (TypeDependencyResolver.resolveTypeF w n t' du' pos' (depth + 1) maxD cu' im' opts st') :=
      fun t' du' pos' cu' im' st' hs => ih t' du' pos' (depth + 1) maxD cu' im' opts st' hs
    have hfieldfold : ∀ (fields : List GoField) (du' cu' : Str) (im' : List (Str × Str))
        (st' : RState), nodupExternalNames st' →
        nodupExternalNames (fields.foldl (fun acc field =>
          match field.typePosition with
          | some tp => TypeDependencyResolver.resolveTypeF w n field.type du' tp (depth + 1)
              maxD cu' im' opts acc
          | none => acc) st') := by
      intro fields du' cu' im' st' hs
      refine foldl_preserves nodupExternalNames _ (fun s' x hs' => ?_) _ _ hs
      cases hx : x.typePosition with
      | none => exact hs'
      | some tp => exact hstep x.type du' tp cu' im' s' hs'
    have hparamfold : ∀ (params : List GoParameter) (du' cu' : Str) (im' : List (Str × Str))
        (st' : RState), nodupExternalNames st' →
        nodupExternalNames (params.foldl (fun a param =>
          match param.typePosition with
          | some tp => TypeDependencyResolver.resolveTypeF w n param.type du' tp (depth + 1)
              maxD cu' im' opts a
          | none => a) st') := by
      intro params du' cu' im' st' hs
      refine foldl_preserves nodupExternalNames _ (fun s' x hs' => ?_) _ _ hs
      cases hx : x.typePosition with
      | none => exact hs'
      | some tp => exact hstep x.type du' tp cu' im' s' hs'
    have hretfold : ∀ (rts : List GoType) (du' cu' : Str) (im' : List (Str × Str))
        (st' : RState), nodupExternalNames st' →
        nodupExternalNames (rts.foldl (fun a rt =>
          match rt.position with
          | some rp => TypeDependencyResolver.resolveTypeF w n rt du' rp (depth + 1)
              maxD cu' im' opts a
          | none => a) st') := by
      intro rts du' cu' im' st' hs
      refine foldl_preserves nodupExternalNames _ (fun s' x hs' => ?_) _ _ hs
      cases hx : x.position with
      | none => exact hs'
      | some rp => exact hstep x du' rp cu' im' s' hs'
    have hmethodfold : ∀ (methods : List GoMethodSignature) (du' cu' : Str)
        (im' : List (Str × Str)) (st' : RState), nodupExternalNames st' →
        nodupExternalNames (methods.foldl (fun acc method =>
          method.returnTypes.foldl (fun (a : RState) (rt : GoType) =>
            match rt.position with
            | some rp => TypeDependencyResolver.resolveTypeF w n rt du' rp (depth + 1)
                maxD cu' im' opts a
            | none => a)
            (method.parameters.foldl (fun (a : RState) (param : GoParameter) =>
              match param.typePosition with
              | some tp => TypeDependencyResolver.resolveTypeF w n param.type du' tp (depth + 1)
                  maxD cu' im' opts a
              | none => a) acc)) st') := by
      intro methods du' cu' im' st' hs
      refine foldl_preserves nodupExternalNames _ (fun s' m hs' => ?_) _ _ hs
      exact hretfold m.returnTypes du' cu' im' _ (hparamfold m.parameters du' cu' im' s' hs')
    have hk : ∀ (s3 : RState), nodupExternalNames s3 →
        nodupExternalNames
          (match t.keyType with
           | some kt => TypeDependencyResolver.resolveTypeF w n kt du
               (kt.position.getD pos) (depth + 1) maxD cu im opts s3
           | none => s3) := by
      intro s3 h3
      cases hkt : t.keyType with
      | none => exact h3
      | some kt => exact hstep kt du (kt.position.getD pos) cu im s3 h3
    have hfinish : ∀ (nd : TypeNode) (s3 : RState), nodupExternalNames s3 →
        nodupExternalNames
          ((fun (st4 : RState) =>
            { st4 with
                nodes := st4.nodes ++ [nd],
                typeMap := mapSet (TypeDependencyResolver.getBaseTypeName t) nd st4.typeMap })
            (if t.isMap then
              (fun (stK : RState) =>
                match t.valueType with
                | some vt => TypeDependencyResolver.resolveTypeF w n vt du
                    (vt.position.getD pos) (depth + 1) maxD cu im opts stK
                | none => stK)
                (match t.keyType with
                 | some kt => TypeDependencyResolver.resolveTypeF w n kt du
                     (kt.position.getD pos) (depth + 1) maxD cu im opts s3
                 | none => s3)
             else s3)) := by
      intro nd s3 h3
      have hcore : nodupExternalNames
          (if t.isMap then
            (fun (stK : RState) =>
              match t.valueType with
              | some vt => TypeDependencyResolver.resolveTypeF w n vt du
                  (vt.position.getD pos) (depth + 1) maxD cu im opts stK
              | none => stK)
              (match t.keyType with
               | some kt => TypeDependencyResolver.resolveTypeF w n kt du
                   (kt.position.getD pos) (depth + 1) maxD cu im opts s3
               | none => s3)
           else s3) := by
        split
        · cases hvt : t.valueType with
          | none => exact hk s3 h3
          | some vt => exact hstep vt du (vt.position.getD pos) cu im _ (hk s3 h3)
        · exact h3
      exact hcore
    rw [resolveTypeF_succ]
    split
    · exact h
    split
    · exact h
    split
    · exact h
    split
    · exact h
    rcases hres : w.resolveAtPosition du pos with e | o
    · simp only [hres]
      exact hfinish _ _ h
    rcases o with _ | ⟨rst, rifc, rsrc, rimp, rgf, rloc⟩
    · simp only [hres]
      exact hfinish _ _ h
    simp only [hres]
    cases rst with
    | none =>
      cases rifc with
      | none => exact hfinish _ _ h
      | some ifc =>
        by_cases hf : TypeDependencyResolver.isForeignSource rsrc cu = true
        · have h2 : nodupExternalNames
              { st with
                  visited := st.visited ++
                             [TypeDependencyResolver.makeTypeKey
                               (TypeDependencyResolver.getBaseTypeName t)
                               t.packagePath (some cu)],
                  externalInterfaces :=
                    TypeDependencyResolver.addExternalInterface st.externalInterfaces ifc } :=
            ⟨h.1, addExternalInterface_nodup _ _ h.2⟩
          cases rgf with
          | none => simp only [if_pos hf]; exact hfinish _ _ h2
          | some gf =>
            cases rloc with
            | none =>
              simp only [if_pos hf]
              exact hfinish _ _ (hmethodfold _ _ _ _ _ h2)
            | some loc =>
              rcases hdoc : w.openTextDocument loc with de | dd
              · simp only [hdoc, if_pos hf]
                exact hfinish _ _ h2
              · simp only [hdoc, if_pos hf]
                exact hfinish _ _ (hmethodfold _ _ _ _ _ h2)
        · cases rgf with
          | none => simp only [if_neg hf]; exact hfinish _ _ h
          | some gf =>
            cases rloc with
            | none =>
              simp only [if_neg hf]
              exact hfinish _ _ (hmethodfold _ _ _ _ _ h)
            | some loc =>
              rcases hdoc : w.openTextDocument loc with de | dd
              · simp only [hdoc, if_neg hf]
                exact hfinish _ _ h
              · simp only [hdoc, if_neg hf]
                exact hfinish _ _ (hmethodfold _ _ _ _ _ h)
    | some s =>
      by_cases hf : TypeDependencyResolver.isForeignSource rsrc cu = true
      · have h2 : nodupExternalNames
            { st with
                visited := st.visited ++
                           [TypeDependencyResolver.makeTypeKey
                             (TypeDependencyResolver.getBaseTypeName t)
                             t.packagePath (some cu)],
                externalStructs :=
                  TypeDependencyResolver.addExternalStruct st.externalStructs s } :=
          ⟨addExternalStruct_nodup _ _ h.1, h.2⟩
        cases rgf with
        | none =>
          cases rifc with
          | none => simp only [if_pos hf]; exact hfinish _ _ h2
          | some ifc =>
            simp only [if_pos hf]
            exact hfinish _ _ ⟨h2.1, addExternalInterface_nodup _ _ h2.2⟩
        | some gf =>
          cases rloc with
          | none =>
            cases rifc with
            | none =>
              simp only [if_pos hf]
              exact hfinish _ _ (hfieldfold _ _ _ _ _ h2)
            | some ifc =>
              simp only [if_pos hf]
              exact hfinish _ _ (hmethodfold _ _ _ _ _
                ⟨(hfieldfold _ _ _ _ _ h2).1,
                 addExternalInterface_nodup _ _ (hfieldfold _ _ _ _ _ h2).2⟩)
          | some loc =>
            rcases hdoc : w.openTextDocument loc with de | dd
            · simp only [hdoc, if_pos hf]
              exact hfinish _ _ h2
            · cases rifc with
              | none =>
                simp only [hdoc, if_pos hf]
                exact hfinish _ _ (hfieldfold _ _ _ _ _ h2)
              | some ifc =>
                simp only [hdoc, if_pos hf]
                exact hfinish _ _ (hmethodfold _ _ _ _ _
                  ⟨(hfieldfold _ _ _ _ _ h2).1,
                   addExternalInterface_nodup _ _ (hfieldfold _ _ _ _ _ h2).2⟩)
      · cases rgf with
        | none =>
          cases rifc with
          | none => simp only [if_neg hf]; exact hfinish _ _ h
          | some ifc => simp only [if_neg hf]; exact hfinish _ _ h
        | some gf =>
          cases rloc with
          | none =>
            cases rifc with
            | none =>
              simp only [if_neg hf]
              exact hfinish _ _ (hfieldfold _ _ _ _ _ h)
            | some ifc =>
              simp only [if_neg hf]
              exact hfinish _ _ (hmethodfold _ _ _ _ _ (hfieldfold _ _ _ _ _ h))
          | some loc =>
            rcases hdoc : w.openTextDocument loc with de | dd
            · simp only [hdoc, if_neg hf]
              exact hfinish _ _ h
            · cases rifc with
              | none =>
                simp only [hdoc, if_neg hf]
                exact hfinish _ _ (hfieldfold _ _ _ _ _ h)
              | some ifc =>
                simp only [hdoc, if_neg hf]
                exact hfinish _ _ (hmethodfold _ _ _ _ _ (hfieldfold _ _ _ _ _ h))

/-- C7: the resolution walk terminates and deduplicates.  (1) a call at
depth exceeding maxDepth returns the state unchanged; (2) a type whose key
(base name stripped of markers, plus package path or current document) is
already in the visited set leaves the state unchanged — each type is
resolved at most once per walk; (3) for EVERY world and file the
external-declaration lists of the finished walk hold pairwise-distinct
struct and interface names; (4) on the mutually-referencing structs A and B
with maxDepth 3, the walk terminates with external structs exactly [B, A]
(each once) and exactly one visited key per type. -/
theorem C7_resolution_walk :
    (∀ (w : ResolverWorld) (fuel : Nat) (t : GoType) (du : Str) (pos : SourcePosition)
        (depth maxD : Nat) (cu : Str) (im : List (Str × Str)) (opts : ResolutionOptions)
        (st : RState), depth > maxD →
        TypeDependencyResolver.resolveTypeF w fuel t du pos depth maxD cu im opts st = st)
    ∧ (∀ (w : ResolverWorld) (fuel : Nat) (t : GoType) (du : Str) (pos : SourcePosition)
        (depth maxD : Nat) (cu : Str) (im : List (Str × Str)) (opts : ResolutionOptions)
        (st : RState),
        st.visited.contains (TypeDependencyResolver.makeTypeKey
          (TypeDependencyResolver.getBaseTypeName t) t.packagePath (some cu)) = true →
        TypeDependencyResolver.resolveTypeF w fuel t du pos depth maxD cu im opts st = st)
    ∧ (∀ (w : ResolverWorld) (goFile : GoFile) (du : Str) (opts : ResolutionOptions),
        nodupExternalNames (TypeDependencyResolver.resolveFileDependencies w goFile du opts))
    ∧ ((TypeDependencyResolver.resolveFileDependencies cyclicWorld gfA0
          ("file:///main.go".data) { maxDepth := some 3 }).externalStructs.map GoStruct.name
          = [("B".data), ("A".data)]
      ∧ (TypeDependencyResolver.resolveFileDependencies cyclicWorld gfA0
          ("file:///main.go".data) { maxDepth := some 3 }).visited
          = [("file:///main.go#B".data), ("file:///b.go#A".data)]) := by
  refine ⟨?_, ?_, ?_, by decide, by decide⟩
  · intro w fuel t du pos depth maxD cu im opts st hgt
    cases fuel with
    | zero => rfl
    | succ n => rw [resolveTypeF_succ, if_pos hgt]
  · intro w fuel t du pos depth maxD cu im opts st hv
    cases fuel with
    | zero => rfl
    | succ n =>
      rw [resolveTypeF_succ]
      by_cases h1 : depth > maxD
      · rw [if_pos h1]
      · rw [if_neg h1]
        by_cases h2 : TypeDependencyResolver.BUILTIN_TYPES.contains
            (TypeDependencyResolver.getBaseTypeName t) = true
        · rw [if_pos h2]
        · rw [if_neg h2, if_pos hv]
  · intro w goFile du opts
    exact foldl_preserves nodupExternalNames _
      (fun s p hs => resolveTypeF_nodup w _ _ _ _ _ _ _ _ _ _ hs) _ _
      ⟨List.nodup_nil, List.nodup_nil⟩

/-- C7 witness: the depth guard at depth 4 > maxDepth 3, and the
visited-set no-op at a state that has already resolved `B`. -/
theorem C7_witness :
    ((4 : Nat) > 3
      ∧ TypeDependencyResolver.resolveTypeF cyclicWorld 1 tB0 ("file:///main.go".data) p1 4 3
          ("file:///main.go".data) [] {} RState.empty = RState.empty)
    ∧ (C7VisState.visited.contains (TypeDependencyResolver.makeTypeKey
          (TypeDependencyResolver.getBaseTypeName tB0) tB0.packagePath
          (some ("file:///main.go".data))) = true
      ∧ TypeDependencyResolver.resolveTypeF cyclicWorld 1 tB0 ("file:///main.go".data) p1 0 3
          ("file:///main.go".data) [] {} C7VisState = C7VisState) :=
  ⟨⟨by decide,
    C7_resolution_walk.1 cyclicWorld 1 tB0 ("file:///main.go".data) p1 4 3
      ("file:///main.go".data) [] {} RState.empty (by decide)⟩,
   ⟨by decide,
    C7_resolution_walk.2.1 cyclicWorld 1 tB0 ("file:///main.go".data) p1 0 3
      ("file:///main.go".data) [] {} C7VisState (by decide)⟩⟩

/-! ### C8 — failure containment -/

/-- C8: failures are contained at the node where they occur.  (1)/(2) a
failing raced hover / type-definition command yields `undefined` from the
provider; (3) a resolver oracle that fails at any set of nodes produces
EXACTLY the state of an oracle that returns "no resolution" there — the
walk continues with the remaining nodes, never throws, and the only
observable effect is the missing enrichment; (4) concretely, when the
nested document read fails, the external struct pushed before the read and
the node itself are kept, only the nested field walk is skipped. -/
theorem C8_failure_containment :
    (∀ (w : GoplsWorld) (du : Str) (pos : SourcePosition),
        w.executeHover du pos = Except.error () →
        GoplsProvider.getHoverInfo w du pos = none)
    ∧ (∀ (w : GoplsWorld) (du : Str) (pos : SourcePosition),
        w.executeTypeDef du pos = Except.error () →
        GoplsProvider.getTypeDefinition w du pos = none)
    ∧ (∀ (w₁ w₂ : ResolverWorld),
        (∀ (du : Str) (pos : SourcePosition),
          w₂.resolveAtPosition du pos = w₁.resolveAtPosition du pos
          ∨ (w₁.resolveAtPosition du pos = Except.error ()
             ∧ w₂.resolveAtPosition du pos = Except.ok none)) →
        (∀ uri : Str, w₂.openTextDocument uri = w₁.openTextDocument uri) →
        ∀ (fuel : Nat) (t : GoType) (du : Str) (pos : SourcePosition) (depth maxD : Nat)
          (cu : Str) (im : List (Str × Str)) (opts : ResolutionOptions) (st : RState),
          TypeDependencyResolver.resolveTypeF w₁ fuel t du pos depth maxD cu im opts st
            = TypeDependencyResolver.resolveTypeF w₂ fuel t du pos depth maxD cu im opts st)
    ∧ ((TypeDependencyResolver.resolveFileDependencies C8FailDocWorld gfA0
          ("file:///main.go".data) { maxDepth := some 3 }).externalStructs.map GoStruct.name
          = [("B".data)]
      ∧ (TypeDependencyResolver.resolveFileDependencies C8FailDocWorld gfA0
          ("file:///main.go".data) { maxDepth := some 3 }).nodes.length = 1
      ∧ (TypeDependencyResolver.resolveFileDependencies C8FailDocWorld gfA0
          ("file:///main.go".data) { maxDepth := some 3 }).visited
          = [("file:///main.go#B".data)]) := by
  refine ⟨?_, ?_, ?_, by decide, by decide, by decide⟩
  · intro w du pos he
    simp [GoplsProvider.getHoverInfo, he]
  · intro w du pos he
    simp [GoplsProvider.getTypeDefinition, he]
  · intro w₁ w₂ hrel hdoc fuel
    induction fuel with
    | zero => intro t du pos depth maxD cu im opts st; rfl
    | succ n ih =>
      intro t du pos depth maxD cu im opts st
      rw [resolveTypeF_succ, resolveTypeF_succ]
      by_cases h1 : depth > maxD
      · rw [if_pos h1, if_pos h1]
      · rw [if_neg h1, if_neg h1]
        by_cases h2 : TypeDependencyResolver.BUILTIN_TYPES.contains
            (TypeDependencyResolver.getBaseTypeName t) = true
        · rw [if_pos h2, if_pos h2]
        · rw [if_neg h2, if_neg h2]
          by_cases h3 : st.visited.contains (TypeDependencyResolver.makeTypeKey
              (TypeDependencyResolver.getBaseTypeName t) t.packagePath (some cu)) = true
          · rw [if_pos h3, if_pos h3]
          · rw [if_neg h3, if_neg h3]
            by_cases h4 : (!(opts.resolveStdlib.getD false) &&
                (match resolveQualifiedType (TypeDependencyResolver.getBaseTypeName t) im with
                 | some q => TypeDependencyResolver.STDLIB_PACKAGES.contains q.packageAlias
                 | none => false)) = true
            · rw [if_pos h4, if_pos h4]
            · rw [if_neg h4, if_neg h4]
              simp only [hdoc, ih]
              rcases hrel du pos with heq | ⟨h1e, h2e⟩
              · rw [heq]
              · rw [h1e, h2e]

/-- C8 witness: the containment applied at always-failing worlds. -/
theorem C8_witness :
    (C8ErrWorld.executeHover [] { line := 0, character := 0 } = Except.error ()
      ∧ GoplsProvider.getHoverInfo C8ErrWorld [] { line := 0, character := 0 } = none)
    ∧ (C8ErrWorld.executeTypeDef [] { line := 0, character := 0 } = Except.error ()
      ∧ GoplsProvider.getTypeDefinition C8ErrWorld [] { line := 0, character := 0 } = none)
    ∧ TypeDependencyResolver.resolveTypeF C8ResErrWorld 4 tB0 ("file:///main.go".data) p1 0 3
        ("file:///main.go".data) [] {} RState.empty
      = TypeDependencyResolver.resolveTypeF C8ResNoneWorld 4 tB0 ("file:///main.go".data) p1 0 3
          ("file:///main.go".data) [] {} RState.empty :=
  ⟨⟨rfl, C8_failure_containment.1 C8ErrWorld [] { line := 0, character := 0 } rfl⟩,
   ⟨rfl, C8_failure_containment.2.1 C8ErrWorld [] { line := 0, character := 0 } rfl⟩,
   C8_failure_containment.2.2.1 C8ResErrWorld C8ResNoneWorld
     (fun _ _ => Or.inr ⟨rfl, rfl⟩) (fun _ => rfl) 4 tB0 ("file:///main.go".data) p1 0 3
     ("file:///main.go".data) [] {} RState.empty⟩
